import Mathlib

/-!
# Master controller of the PMEM-CSI driver

A shallow embedding of `pkg/pmem-csi-driver/controllerserver-master.go`.

* A Go `map[string]V` is an association list with pairwise distinct keys
  (`GoMap V`).  Go leaves the order in which `range` visits a map unspecified;
  the order of the entries stands for the order of that visit.  The statements
  below quantify over every map, hence over every such order, and speak of
  maps through `lookup` and of the lists read off them up to permutation.
* The registry, the node controllers and the UUID generator are external.
  What they answer during one call is an `Env`; what the controller asked of
  them is recorded, in order, in the `trace` of the call's `Outcome`.
* A handler returns a response, returns a gRPC status code, or dereferences a
  nil pointer (`Result.panic`).
* `int64` values are integers; the one place where the code adds them
  (`GetCapacity`) wraps explicitly to 64 bits.
-/

namespace PmemCSI

/-! ## Go maps -/

/-- A Go `map[string]V`: an association list without repeated keys. -/
abbrev GoMap (V : Type) := AList (fun _ : String => V)

/-- Two maps are equal when they list the same entries. -/
instance GoMap.instDecEq {V : Type} [DecidableEq V] : DecidableEq (GoMap V) :=
  fun a b => decidable_of_iff (a.entries = b.entries) AList.ext_iff.symm

/-! ## Data model (lines 26-68) -/

/-- The type `VolumeStatus` and its four constants. -/
inductive VolumeStatus where
  | Created
  | Attached
  | Unattached
  | Deleted
  deriving DecidableEq, Repr

/-- The type `PmemPersistencyModel`, a string. -/
abbrev PmemPersistencyModel := String

def pmemParameterKeyPersistencyModel : String := "persistencyModel"

def pmemParameterKeyCacheSize : String := "cacheSize"

def pmemPersistencyModelNone : PmemPersistencyModel := "none"

def pmemPersistencyModelCache : PmemPersistencyModel := "cache"

/-- Modelled from the spec: the fixed node-identifier key of a topology
segment, `PmemDriverTopologyKey`, is declared outside this file.  No statement
depends on its value. -/
def PmemDriverTopologyKey : String := "pmem-csi.intel.com/node"

/-- The struct `pmemVolume`. -/
structure pmemVolume where
  id : String
  name : String
  size : Int
  nodeIDs : GoMap VolumeStatus
  volumeType : PmemPersistencyModel
  deriving DecidableEq

/-- The registry's record of a node (`NodeInfo`, declared with the registry). -/
structure NodeInfo where
  NodeID : String
  Endpoint : String
  deriving DecidableEq

/-- The part of `registryServer` the controller reads: `nodeClients`. -/
structure registryServer where
  nodeClients : GoMap NodeInfo
  deriving DecidableEq

/-- The struct `masterController`.  Its embedded `DefaultControllerServer`
only holds the service capabilities, fixed by `NewMasterControllerServer`. -/
structure masterController where
  rs : registryServer
  pmemVolumes : GoMap pmemVolume
  deriving DecidableEq

/-! ## gRPC and CSI types -/

/-- The gRPC status codes the controller returns. -/
inductive codes where
  | InvalidArgument
  | AlreadyExists
  | NotFound
  | FailedPrecondition
  | Unavailable
  deriving DecidableEq, Repr

/-- The type `csi.ControllerServiceCapability_RPC_Type`. -/
inductive RPCType where
  | UNKNOWN
  | CREATE_DELETE_VOLUME
  | PUBLISH_UNPUBLISH_VOLUME
  | LIST_VOLUMES
  | GET_CAPACITY
  | CREATE_DELETE_SNAPSHOT
  | LIST_SNAPSHOTS
  | CLONE_VOLUME
  | PUBLISH_READONLY
  deriving DecidableEq, Repr

/-- The message `csi.Topology`; a nil `Segments` map reads like an empty one. -/
structure Topology where
  Segments : GoMap String
  deriving DecidableEq

/-- The message `csi.TopologyRequirement`; `none` is a nil slice. -/
structure TopologyRequirement where
  Requisite : Option (List Topology)
  Preferred : Option (List Topology)
  deriving DecidableEq

/-- The message `csi.VolumeCapability_AccessMode`; `Mode` is an open enum. -/
structure AccessMode where
  Mode : Int
  deriving DecidableEq

def VolumeCapability_AccessMode_UNKNOWN : Int := 0

def VolumeCapability_AccessMode_SINGLE_NODE_WRITER : Int := 1

/-- The message `csi.VolumeCapability`; `none` is a nil `AccessMode`. -/
structure VolumeCapability where
  AccessMode : Option AccessMode
  deriving DecidableEq

/-- The message `csi.CapacityRange`. -/
structure CapacityRange where
  RequiredBytes : Int
  LimitBytes : Int
  deriving DecidableEq

/-- The message `csi.CreateVolumeRequest`; `none` is a nil pointer, slice or
map. -/
structure CreateVolumeRequest where
  Name : String
  CapacityRange : Option CapacityRange
  VolumeCapabilities : Option (List VolumeCapability)
  Parameters : Option (GoMap String)
  AccessibilityRequirements : Option TopologyRequirement
  deriving DecidableEq

/-- The message `csi.Volume`. -/
structure Volume where
  VolumeId : String
  CapacityBytes : Int
  AccessibleTopology : List Topology
  VolumeContext : Option (GoMap String)
  deriving DecidableEq

structure CreateVolumeResponse where
  Volume : Volume
  deriving DecidableEq

structure DeleteVolumeRequest where
  VolumeId : String
  deriving DecidableEq

structure DeleteVolumeResponse where
  deriving DecidableEq

structure ControllerPublishVolumeRequest where
  VolumeId : String
  NodeId : String
  VolumeCapability : Option VolumeCapability
  deriving DecidableEq

structure ControllerPublishVolumeResponse where
  deriving DecidableEq

structure ControllerUnpublishVolumeRequest where
  VolumeId : String
  NodeId : String
  deriving DecidableEq

structure ControllerUnpublishVolumeResponse where
  deriving DecidableEq

structure ValidateVolumeCapabilitiesRequest where
  VolumeId : String
  VolumeContext : Option (GoMap String)
  VolumeCapabilities : Option (List VolumeCapability)
  deriving DecidableEq

/-- The message `csi.ValidateVolumeCapabilitiesResponse_Confirmed`. -/
structure Confirmed where
  VolumeContext : Option (GoMap String)
  VolumeCapabilities : Option (List VolumeCapability)
  deriving DecidableEq

structure ValidateVolumeCapabilitiesResponse where
  Confirmed : Option Confirmed
  Message : String
  deriving DecidableEq

/-- The message `csi.ListVolumesResponse_Entry`. -/
structure Entry where
  Volume : Volume
  deriving DecidableEq

structure ListVolumesResponse where
  Entries : List Entry
  deriving DecidableEq

structure GetCapacityResponse where
  AvailableCapacity : Int
  deriving DecidableEq

/-! ## The world outside the controller -/

/-- What the collaborators answer during one call: the UUID that
`uuid.NewUUID` hands out, whether `ConnectToNodeController` reaches a node, and
what the node's controller answers to each remote call. -/
structure Env where
  newUUID : String
  connect : String → Bool
  createVolume : String → Bool
  deleteVolume : String → Bool
  getCapacity : String → Option Int

/-- What the controller asked of a node, and whether it succeeded. -/
inductive Event where
  | connect (node : String) (ok : Bool)
  | createVolume (node : String) (parameters : GoMap String) (ok : Bool)
  | deleteVolume (node : String) (volumeId : String) (ok : Bool)
  | getCapacity (node : String) (ok : Bool)
  deriving DecidableEq

/-- The node an event was addressed to. -/
def Event.node : Event → String
  | .connect n _ => n
  | .createVolume n _ _ => n
  | .deleteVolume n _ _ => n
  | .getCapacity n _ => n

/-- How a handler ends: a response, a status error, or a nil dereference. -/
inductive Result (α : Type) where
  | ok (resp : α)
  | error (code : codes)
  | panic
  deriving DecidableEq

/-- A finished call: its result, the controller afterwards, and the requests
it sent to nodes. -/
structure Outcome (α : Type) where
  result : Result α
  cs : masterController
  trace : List Event
  deriving DecidableEq

/-! ## Library functions -/

def maxUint64 : Nat := 2 ^ 64 - 1

/-- The digit loop of `strconv.ParseUint(s, 10, 64)`: `n` is the value read
so far, `cutoff = maxUint64/10 + 1`, `maxVal = maxUint64`. -/
def parseUintLoop : List Char → Nat → Option Nat
  | [], n => some n
  | d :: rest, n =>
    if '0' ≤ d ∧ d ≤ '9' then
      let v := d.toNat - '0'.toNat
      if n ≥ maxUint64 / 10 + 1 then none
      else
        let n' := (n * 10) % 2 ^ 64
        let n1 := (n' + v) % 2 ^ 64
        if n1 < n' ∨ n1 > maxUint64 then none
        else parseUintLoop rest n1
    else none

/-- The call `strconv.ParseUint(s, 10, 64)`; `none` is a non-nil error. -/
def ParseUint (s : String) : Option Nat :=
  if s.toList.length = 0 then none else parseUintLoop s.toList 0

/-- An `int64` after an addition: the sum wrapped to 64 bits, two's
complement. -/
def wrapInt64 (x : Int) : Int := (x + 2 ^ 63) % 2 ^ 64 - 2 ^ 63

/-- The capabilities `NewMasterControllerServer` advertises (lines 75-80). -/
def serverCaps : List RPCType :=
  [.CREATE_DELETE_VOLUME, .PUBLISH_UNPUBLISH_VOLUME, .LIST_VOLUMES, .GET_CAPACITY]

/-- Modelled from the spec: `ValidateControllerServiceRequest` belongs to
`DefaultControllerServer`, declared outside this file.  A request type is
accepted when it is unknown or among the advertised capabilities, and refused
as an invalid argument otherwise. -/
def ValidateControllerServiceRequest (c : RPCType) : Option codes :=
  if c = .UNKNOWN then none
  else if c ∈ serverCaps then none
  else some .InvalidArgument

/-- The function `NewMasterControllerServer`. -/
def NewMasterControllerServer (rs : registryServer) : masterController :=
  { rs := rs, pmemVolumes := ∅ }

/-! ## Directory lookups (lines 423-437) -/

def getVolumeByID (cs : masterController) (volumeID : String) : Option pmemVolume :=
  cs.pmemVolumes.lookup volumeID

def getVolumeByName (cs : masterController) (Name : String) : Option pmemVolume :=
  (cs.pmemVolumes.entries.find? (fun e => e.2.name = Name)).map (fun e => e.2)

/-! ## CreateVolume (lines 92-225) -/

/-- The getter chain `req.GetCapacityRange().GetRequiredBytes()`. -/
def GetRequiredBytes (req : CreateVolumeRequest) : Int :=
  match req.CapacityRange with
  | none => 0
  | some r => r.RequiredBytes

/-- Lines 125-144: the volume type and the number of replicas to create. -/
def createParameters (parameters : Option (GoMap String)) : PmemPersistencyModel × Nat :=
  match parameters with
  | none => (pmemPersistencyModelNone, 1)
  | some p =>
    match p.lookup pmemParameterKeyPersistencyModel with
    | none => (pmemPersistencyModelNone, 1)
    | some val =>
      if val = pmemPersistencyModelCache then
        match p.lookup pmemParameterKeyCacheSize with
        | none => (val, 1)
        | some sz =>
          match ParseUint sz with
          | none => (val, 1)
          | some c => (val, c)
      else (val, 1)

/-- A topology entry naming one node. -/
def nodeTopology (node : String) : Topology :=
  { Segments := AList.singleton PmemDriverTopologyKey node }

/-- The node a topology entry names: `top.Segments[PmemDriverTopologyKey]`. -/
def topologyNode (top : Topology) : String :=
  (top.Segments.lookup PmemDriverTopologyKey).getD ""

/-- Lines 146-151: the topology the request asks for. -/
def requestedTopology (req : CreateVolumeRequest) : List Topology :=
  match req.AccessibilityRequirements with
  | none => []
  | some reqTop =>
    match reqTop.Preferred with
    | some preferred => preferred
    | none => reqTop.Requisite.getD []

/-- Lines 146-163: the candidates, every known node when none is asked for. -/
def candidateTopology (cs : masterController) (req : CreateVolumeRequest) : List Topology :=
  let inTopology := requestedTopology req
  if inTopology.length = 0 then cs.rs.nodeClients.keys.map nodeTopology
  else inTopology

/-- The variables the loop of lines 167-188 updates. -/
structure FanOut where
  cacheCount : Nat
  chosenNodes : GoMap VolumeStatus
  trace : List Event
  deriving DecidableEq

/-- The loop of lines 167-188 over the candidates; `parameters` is what the
remote request carries. -/
def createFanOut (env : Env) (parameters : GoMap String) : List Topology → FanOut → FanOut
  | [], st => st
  | top :: rest, st =>
    if st.cacheCount = 0 then st
    else
      let node := topologyNode top
      if env.connect node = false then
        createFanOut env parameters rest
          { st with trace := st.trace ++ [.connect node false] }
      else if env.createVolume node = false then
        createFanOut env parameters rest
          { st with trace := st.trace ++ [.connect node true, .createVolume node parameters false] }
      else
        createFanOut env parameters rest
          { cacheCount := st.cacheCount - 1
            chosenNodes := st.chosenNodes.insert node .Created
            trace := st.trace ++ [.connect node true, .createVolume node parameters true] }

/-- Lines 209-215: one topology entry per chosen node. -/
def outTopology (chosenNodes : GoMap VolumeStatus) : List Topology :=
  chosenNodes.keys.map nodeTopology

def CreateVolume (cs : masterController) (env : Env) (req : CreateVolumeRequest) :
    Outcome CreateVolumeResponse :=
  match ValidateControllerServiceRequest .CREATE_DELETE_VOLUME with
  | some err => ⟨.error err, cs, []⟩
  | none =>
    if req.VolumeCapabilities = none then ⟨.error .InvalidArgument, cs, []⟩
    else if req.Name = "" then ⟨.error .InvalidArgument, cs, []⟩
    else
      let asked := GetRequiredBytes req
      match getVolumeByName cs req.Name with
      | some vol =>
        if vol.size < asked then ⟨.error .AlreadyExists, cs, []⟩
        else
          ⟨.ok ⟨{ VolumeId := vol.id
                  CapacityBytes := asked
                  AccessibleTopology := outTopology vol.nodeIDs
                  VolumeContext := req.Parameters }⟩, cs, []⟩
      | none =>
        let volumeID := env.newUUID
        let volumeType := (createParameters req.Parameters).1
        let cacheCount := (createParameters req.Parameters).2
        let parameters := req.Parameters.getD ∅
        let inTopology := candidateTopology cs req
        let loop := createFanOut env (parameters.insert "_id" volumeID) inTopology
          { cacheCount := cacheCount, chosenNodes := ∅, trace := [] }
        let chosenNodes := loop.chosenNodes
        if chosenNodes.keys.length = 0 then ⟨.error .Unavailable, cs, loop.trace⟩
        else
          let vol : pmemVolume :=
            { id := volumeID
              name := req.Name
              size := asked
              nodeIDs := chosenNodes
              volumeType := volumeType }
          ⟨.ok ⟨{ VolumeId := vol.id
                  CapacityBytes := asked
                  AccessibleTopology := outTopology chosenNodes
                  VolumeContext := some ((parameters.insert "_id" volumeID).erase "_id") }⟩,
            { cs with pmemVolumes := cs.pmemVolumes.insert volumeID vol },
            loop.trace⟩

/-! ## DeleteVolume (lines 227-262) -/

/-- How the loop of lines 244-254 ends: the requests it sent, and whether it
ran into the nil connection a failed `ConnectToNodeController` leaves. -/
structure DeleteFanOut where
  panicked : Bool
  trace : List Event
  deriving DecidableEq

/-- The loop of lines 244-254 over the nodes of the volume.  A connection
error is logged and the loop body goes on: the remote call is then made on the
nil connection, which is a nil dereference. -/
def deleteFanOut (env : Env) (volumeId : String) : List String → List Event → DeleteFanOut
  | [], trace => ⟨false, trace⟩
  | node :: rest, trace =>
    if env.connect node = false then ⟨true, trace ++ [.connect node false]⟩
    else
      deleteFanOut env volumeId rest
        (trace ++ [.connect node true, .deleteVolume node volumeId (env.deleteVolume node)])

def DeleteVolume (cs : masterController) (env : Env) (req : DeleteVolumeRequest) :
    Outcome DeleteVolumeResponse :=
  match ValidateControllerServiceRequest .CREATE_DELETE_VOLUME with
  | some err => ⟨.error err, cs, []⟩
  | none =>
    if req.VolumeId = "" then ⟨.error .InvalidArgument, cs, []⟩
    else
      match getVolumeByID cs req.VolumeId with
      | some vol =>
        let loop := deleteFanOut env req.VolumeId vol.nodeIDs.keys []
        if loop.panicked then ⟨.panic, cs, loop.trace⟩
        else ⟨.ok {}, { cs with pmemVolumes := cs.pmemVolumes.erase vol.id }, loop.trace⟩
      | none => ⟨.ok {}, cs, []⟩

/-! ## ControllerPublishVolume and ControllerUnpublishVolume (lines 264-326) -/

/-- The assignment `vol.nodeIDs[node] = state` on a record of the directory. -/
def pmemVolume.setNode (vol : pmemVolume) (node : String) (state : VolumeStatus) : pmemVolume :=
  { vol with nodeIDs := vol.nodeIDs.insert node state }

def ControllerPublishVolume (cs : masterController) (req : ControllerPublishVolumeRequest) :
    Outcome ControllerPublishVolumeResponse :=
  match ValidateControllerServiceRequest .PUBLISH_UNPUBLISH_VOLUME with
  | some err => ⟨.error err, cs, []⟩
  | none =>
    if req.VolumeId = "" then ⟨.error .InvalidArgument, cs, []⟩
    else if req.NodeId = "" then ⟨.error .InvalidArgument, cs, []⟩
    else if req.VolumeCapability = none then ⟨.error .InvalidArgument, cs, []⟩
    else
      match getVolumeByID cs req.VolumeId with
      | none => ⟨.error .NotFound, cs, []⟩
      | some vol =>
        match vol.nodeIDs.lookup req.NodeId with
        | none => ⟨.error .FailedPrecondition, cs, []⟩
        | some state =>
          if state = .Attached then ⟨.error .AlreadyExists, cs, []⟩
          else
            ⟨.ok {},
              { cs with pmemVolumes :=
                  cs.pmemVolumes.insert req.VolumeId (vol.setNode req.NodeId .Attached) },
              []⟩

def ControllerUnpublishVolume (cs : masterController) (req : ControllerUnpublishVolumeRequest) :
    Outcome ControllerUnpublishVolumeResponse :=
  match ValidateControllerServiceRequest .PUBLISH_UNPUBLISH_VOLUME with
  | some err => ⟨.error err, cs, []⟩
  | none =>
    if req.VolumeId = "" then ⟨.error .InvalidArgument, cs, []⟩
    else
      match getVolumeByID cs req.VolumeId with
      | some vol =>
        ⟨.ok {},
          { cs with pmemVolumes :=
              cs.pmemVolumes.insert req.VolumeId (vol.setNode req.NodeId .Unattached) },
          []⟩
      | none => ⟨.error .NotFound, cs, []⟩

/-! ## ValidateVolumeCapabilities (lines 328-362) -/

/-- The getter chain `cap.GetAccessMode().GetMode()`, safe on a nil access
mode. -/
def GetMode (cap : VolumeCapability) : Int :=
  match cap.AccessMode with
  | none => VolumeCapability_AccessMode_UNKNOWN
  | some am => am.Mode

/-- The method `String` of the access-mode enum. -/
def modeString (mode : Int) : String :=
  if mode = 0 then "UNKNOWN"
  else if mode = 1 then "SINGLE_NODE_WRITER"
  else if mode = 2 then "SINGLE_NODE_READER_ONLY"
  else if mode = 3 then "MULTI_NODE_READER_ONLY"
  else if mode = 4 then "MULTI_NODE_SINGLE_WRITER"
  else if mode = 5 then "MULTI_NODE_MULTI_WRITER"
  else toString mode

/-- The loop of lines 344-351: `none` when every capability passed.  The
message reads `cap.AccessMode.Mode` without the getters, a nil dereference
when the capability has no access mode. -/
def validateCapabilities :
    List VolumeCapability → Option (Result ValidateVolumeCapabilitiesResponse)
  | [] => none
  | cap :: rest =>
    if GetMode cap ≠ VolumeCapability_AccessMode_SINGLE_NODE_WRITER then
      match cap.AccessMode with
      | none => some .panic
      | some am =>
        some (.ok { Confirmed := none
                    Message := "Driver does not support '" ++ modeString am.Mode ++ "' mode" })
    else validateCapabilities rest

def ValidateVolumeCapabilities (cs : masterController) (req : ValidateVolumeCapabilitiesRequest) :
    Outcome ValidateVolumeCapabilitiesResponse :=
  if req.VolumeId = "" then ⟨.error .InvalidArgument, cs, []⟩
  else
    match cs.pmemVolumes.lookup req.VolumeId with
    | none => ⟨.error .NotFound, cs, []⟩
    | some _ =>
      match req.VolumeCapabilities with
      | none => ⟨.error .InvalidArgument, cs, []⟩
      | some caps =>
        match validateCapabilities caps with
        | some r => ⟨r, cs, []⟩
        | none =>
          ⟨.ok { Confirmed := some { VolumeCapabilities := req.VolumeCapabilities
                                     VolumeContext := req.VolumeContext }
                 Message := "" }, cs, []⟩

/-! ## ListVolumes and GetCapacity (lines 364-421) -/

def ListVolumes (cs : masterController) : Outcome ListVolumesResponse :=
  match ValidateControllerServiceRequest .LIST_VOLUMES with
  | some err => ⟨.error err, cs, []⟩
  | none =>
    ⟨.ok { Entries := cs.pmemVolumes.entries.map fun e =>
             { Volume := { VolumeId := e.2.id
                           CapacityBytes := e.2.size
                           AccessibleTopology := []
                           VolumeContext := none } } },
      cs, []⟩

/-- The function `getNodeCapacity`: the capacity the node reports, `none` on
an error, and the requests sent. -/
def getNodeCapacity (env : Env) (node : NodeInfo) : Option Int × List Event :=
  if env.connect node.NodeID = false then (none, [.connect node.NodeID false])
  else
    match env.getCapacity node.NodeID with
    | none => (none, [.connect node.NodeID true, .getCapacity node.NodeID false])
    | some c => (some c, [.connect node.NodeID true, .getCapacity node.NodeID true])

/-- The loop of lines 392-399; `capacity` is the running `int64` sum. -/
def capacityFanOut (env : Env) : List NodeInfo → Int → List Event → Int × List Event
  | [], capacity, trace => (capacity, trace)
  | node :: rest, capacity, trace =>
    match getNodeCapacity env node with
    | (none, events) => capacityFanOut env rest capacity (trace ++ events)
    | (some c, events) => capacityFanOut env rest (wrapInt64 (capacity + c)) (trace ++ events)

def GetCapacity (cs : masterController) (env : Env) : Outcome GetCapacityResponse :=
  match ValidateControllerServiceRequest .GET_CAPACITY with
  | some err => ⟨.error err, cs, []⟩
  | none =>
    let loop := capacityFanOut env (cs.rs.nodeClients.entries.map fun e => e.2) 0 []
    ⟨.ok { AvailableCapacity := loop.1 }, cs, loop.2⟩

/-! ## Names for what the statements talk about -/

/-- The loop of `CreateVolume` as the new-volume path runs it: over the
candidates, from an empty set of chosen nodes, the request carrying the new
identifier under `_id`. -/
def newVolumeFanOut (cs : masterController) (env : Env) (req : CreateVolumeRequest) : FanOut :=
  createFanOut env ((req.Parameters.getD ∅).insert "_id" env.newUUID) (candidateTopology cs req)
    { cacheCount := (createParameters req.Parameters).2, chosenNodes := ∅, trace := [] }

/-- The record the new-volume path builds (lines 198-204). -/
def newVolume (cs : masterController) (env : Env) (req : CreateVolumeRequest) : pmemVolume :=
  { id := env.newUUID
    name := req.Name
    size := GetRequiredBytes req
    nodeIDs := (newVolumeFanOut cs env req).chosenNodes
    volumeType := (createParameters req.Parameters).1 }

/-- The nodes on which a remote create succeeded, in the order of the calls. -/
def createdOn : List Event → List String
  | [] => []
  | .createVolume node _ true :: rest => node :: createdOn rest
  | _ :: rest => createdOn rest

/-- No two records of the directory have the same name. -/
def NamesUnique (cs : masterController) : Prop :=
  (cs.pmemVolumes.entries.map fun e => e.2.name).Nodup

instance NamesUnique.instDecidable (cs : masterController) : Decidable (NamesUnique cs) :=
  inferInstanceAs (Decidable (List.Nodup _))

/-- Every record is stored under its own id. -/
def KeyedById (cs : masterController) : Prop :=
  ∀ e ∈ cs.pmemVolumes.entries, e.2.id = e.1

instance KeyedById.instDecidable (cs : masterController) : Decidable (KeyedById cs) :=
  inferInstanceAs (Decidable (∀ e ∈ cs.pmemVolumes.entries, e.2.id = e.1))

/-- Every record has at least one replica node. -/
def ReplicasNonEmpty (cs : masterController) : Prop :=
  ∀ e ∈ cs.pmemVolumes.entries, e.2.nodeIDs.keys ≠ []

instance ReplicasNonEmpty.instDecidable (cs : masterController) :
    Decidable (ReplicasNonEmpty cs) :=
  inferInstanceAs (Decidable (∀ e ∈ cs.pmemVolumes.entries, e.2.nodeIDs.keys ≠ []))

/-- The nodes the controller tried to connect to, in the order of the attempts. -/
def contacted : List Event → List String
  | [] => []
  | .connect node _ :: rest => node :: contacted rest
  | _ :: rest => contacted rest

/-- Whether the world lets a node complete both the connection and the remote
create. -/
def Env.creates (env : Env) (node : String) : Bool :=
  env.connect node && env.createVolume node

/-- The preferred topology list of a request, empty when there is none. -/
def preferredTopology (req : CreateVolumeRequest) : List Topology :=
  (req.AccessibilityRequirements.bind fun r => r.Preferred).getD []

/-- The requisite topology list of a request, empty when there is none. -/
def requisiteTopology (req : CreateVolumeRequest) : List Topology :=
  (req.AccessibilityRequirements.bind fun r => r.Requisite).getD []

/-- The preferred list as the protobuf decoder leaves it: a repeated field
without entries is a nil slice, never an empty one.  The handler is served
over gRPC only (`RegisterService`), so its requests have this form. -/
def PreferredDecoded (req : CreateVolumeRequest) : Prop :=
  (req.AccessibilityRequirements.bind fun r => r.Preferred) ≠ some []

instance PreferredDecoded.instDecidable (req : CreateVolumeRequest) :
    Decidable (PreferredDecoded req) :=
  inferInstanceAs (Decidable (_ ≠ _))

/-- Every node the call contacted, every node it created the volume on and
every node of the topology it answered is the node segment of an entry of the
list. -/
def NodesWithin (out : Outcome CreateVolumeResponse) (entries : List Topology) : Prop :=
  (∀ n ∈ contacted out.trace, ∃ top ∈ entries, topologyNode top = n) ∧
  (∀ n ∈ createdOn out.trace, ∃ top ∈ entries, topologyNode top = n) ∧
  (∀ resp, out.result = .ok resp → ∀ t ∈ resp.Volume.AccessibleTopology,
    ∃ top ∈ entries, topologyNode top = topologyNode t)

/-- The candidate nodes of a new volume, in the order the loop visits them. -/
def candidateNodes (cs : masterController) (req : CreateVolumeRequest) : List String :=
  (candidateTopology cs req).map topologyNode

/-- The first candidates, in the candidates' order, on which connection and
remote create both succeed, as many as there are, up to the replica target. -/
def firstCreated (cs : masterController) (env : Env) (req : CreateVolumeRequest) : List String :=
  ((candidateNodes cs req).filter env.creates).take (createParameters req.Parameters).2

/-- The number a list of decimal digits writes, after the digits read before
them gave `n`. -/
def decimalValue (digits : List Char) (n : Nat) : Nat :=
  digits.foldl (fun n d => 10 * n + (d.toNat - '0'.toNat)) n

/-- What the specification asks of `cacheSize`: an unsigned base-10 integer
that fits in 64 bits, that is a non-empty string of decimal digits, without
sign, whose value is below 2 ^ 64; and its value then. -/
def unsignedDecimal64 (s : String) : Option Nat :=
  if s.toList ≠ [] ∧ s.toList.all Char.isDigit = true ∧ decimalValue s.toList 0 < 2 ^ 64 then
    some (decimalValue s.toList 0)
  else none

/-- One call of the controller, with what the world answers during it. -/
inductive Call where
  | create (env : Env) (req : CreateVolumeRequest)
  | delete (env : Env) (req : DeleteVolumeRequest)
  | publish (req : ControllerPublishVolumeRequest)
  | unpublish (req : ControllerUnpublishVolumeRequest)
  | validate (req : ValidateVolumeCapabilitiesRequest)
  | list
  | capacity (env : Env)

/-- The controller after a call. -/
def Call.run (cs : masterController) : Call → masterController
  | .create env req => (CreateVolume cs env req).cs
  | .delete env req => (DeleteVolume cs env req).cs
  | .publish req => (ControllerPublishVolume cs req).cs
  | .unpublish req => (ControllerUnpublishVolume cs req).cs
  | .validate req => (ValidateVolumeCapabilities cs req).cs
  | .list => (ListVolumes cs).cs
  | .capacity env => (GetCapacity cs env).cs

/-- The states the controller reaches from an empty directory, one call after
the other, while the registry gains and loses nodes. -/
inductive Reachable : masterController → Prop where
  | init (rs : registryServer) : Reachable (NewMasterControllerServer rs)
  | registry (cs : masterController) (rs : registryServer) :
      Reachable cs → Reachable { cs with rs := rs }
  | step (cs : masterController) (call : Call) : Reachable cs → Reachable (call.run cs)

/-! ## Example states -/

/-- A registry that knows the nodes A, B and C. -/
def rsABC : registryServer :=
  { nodeClients := ((∅ : GoMap NodeInfo).insert "C" ⟨"C", "c:10001"⟩).insert "B"
      ⟨"B", "b:10001"⟩ |>.insert "A" ⟨"A", "a:10001"⟩ }

/-- A world in which node B cannot be reached; A reports 500 bytes. -/
def envB : Env :=
  { newUUID := "id-2"
    connect := fun node => node != "B"
    createVolume := fun _ => true
    deleteVolume := fun _ => true
    getCapacity := fun node => if node = "A" then some 500 else none }

/-- A world in which every node answers. -/
def envAll : Env :=
  { newUUID := "id-1"
    connect := fun _ => true
    createVolume := fun _ => true
    deleteVolume := fun _ => true
    getCapacity := fun _ => some 100 }

/-- A world in which no node can be reached. -/
def envNone : Env :=
  { newUUID := "id-3"
    connect := fun _ => false
    createVolume := fun _ => false
    deleteVolume := fun _ => false
    getCapacity := fun _ => none }

/-- The request create(name = v2, 1 GiB, persistencyModel = cache, cacheSize = 2). -/
def reqV2 : CreateVolumeRequest :=
  { Name := "v2"
    CapacityRange := some { RequiredBytes := 1073741824, LimitBytes := 0 }
    VolumeCapabilities := some [{ AccessMode := some { Mode := 1 } }]
    Parameters := some (((∅ : GoMap String).insert "cacheSize" "2").insert
      "persistencyModel" "cache")
    AccessibilityRequirements := none }

/-- The request create(name = v2, 2 GiB). -/
def reqV2Large : CreateVolumeRequest :=
  { reqV2 with CapacityRange := some { RequiredBytes := 2147483648, LimitBytes := 0 } }

/-- The controller after create(v2) in a world where B cannot be reached. -/
def csV2 : masterController := (CreateVolume (NewMasterControllerServer rsABC) envB reqV2).cs

/-- The request delete(id-2). -/
def reqDeleteV2 : DeleteVolumeRequest := { VolumeId := "id-2" }

/-- The request publish(id-2, node A). -/
def reqPublishA : ControllerPublishVolumeRequest :=
  { VolumeId := "id-2", NodeId := "A", VolumeCapability := some { AccessMode := some { Mode := 1 } } }

/-- The request unpublish(id-2, node X); the volume has no replica on X. -/
def reqUnpublishX : ControllerUnpublishVolumeRequest := { VolumeId := "id-2", NodeId := "X" }

/-- The record create(v2) left in the directory. -/
def volV2 : pmemVolume :=
  { id := "id-2"
    name := "v2"
    size := 1073741824
    nodeIDs := ((∅ : GoMap VolumeStatus).insert "A" .Created).insert "C" .Created
    volumeType := "cache" }

/-- The request publish(id-2, node X). -/
def reqPublishX : ControllerPublishVolumeRequest :=
  { VolumeId := "id-2", NodeId := "X", VolumeCapability := some { AccessMode := some { Mode := 1 } } }

/-- A registry that knows the nodes A and B. -/
def rsAB : registryServer :=
  { nodeClients := ((∅ : GoMap NodeInfo).insert "B" ⟨"B", "b:10001"⟩).insert "A"
      ⟨"A", "a:10001"⟩ }

/-- The request validate(id-2) with one capability that has no access mode. -/
def reqValidateNoMode : ValidateVolumeCapabilitiesRequest :=
  { VolumeId := "id-2", VolumeContext := none, VolumeCapabilities := some [{ AccessMode := none }] }

/-- The request create(name = v3) whose caller supplies a parameter `_id`. -/
def reqOwnId : CreateVolumeRequest :=
  { Name := "v3"
    CapacityRange := none
    VolumeCapabilities := some []
    Parameters := some ((∅ : GoMap String).insert "_id" "mine")
    AccessibilityRequirements := none }

/-- The request create(name = v1, 1 GiB, persistencyModel = none). -/
def reqV1 : CreateVolumeRequest :=
  { Name := "v1"
    CapacityRange := some { RequiredBytes := 1073741824, LimitBytes := 0 }
    VolumeCapabilities := some [{ AccessMode := some { Mode := 1 } }]
    Parameters := some ((∅ : GoMap String).insert "persistencyModel" "none")
    AccessibilityRequirements := none }

/-- The request create(name = v4) that prefers node C and requires B or C. -/
def reqPreferredC : CreateVolumeRequest :=
  { Name := "v4"
    CapacityRange := none
    VolumeCapabilities := some [{ AccessMode := some { Mode := 1 } }]
    Parameters := none
    AccessibilityRequirements :=
      some { Requisite := some [nodeTopology "B", nodeTopology "C"]
             Preferred := some [nodeTopology "C"] } }

/-- The request create(name = v4) without preferred list that requires B. -/
def reqRequisiteB : CreateVolumeRequest :=
  { Name := "v4"
    CapacityRange := none
    VolumeCapabilities := some [{ AccessMode := some { Mode := 1 } }]
    Parameters := none
    AccessibilityRequirements := some { Requisite := some [nodeTopology "B"], Preferred := none } }

/-- The request create(name = v5, persistencyModel = cache, cacheSize = 0). -/
def reqCacheZero : CreateVolumeRequest :=
  { Name := "v5"
    CapacityRange := none
    VolumeCapabilities := some []
    Parameters := some (((∅ : GoMap String).insert "cacheSize" "0").insert
      "persistencyModel" "cache")
    AccessibilityRequirements := none }

/-- The controller after create(v2) and then create(v1). -/
def csV1V2 : masterController := (CreateVolume csV2 envAll reqV1).cs

/-- The record create(v1) left in the directory. -/
def volV1 : pmemVolume :=
  { id := "id-1"
    name := "v1"
    size := 1073741824
    nodeIDs := (∅ : GoMap VolumeStatus).insert "A" .Created
    volumeType := "none" }

/-! ## Lemmas on the directory and on the create loop -/

theorem getVolumeByName_eq_none (cs : masterController) (Name : String) :
    getVolumeByName cs Name = none ↔ ∀ e ∈ cs.pmemVolumes.entries, e.2.name ≠ Name := by
  simp [getVolumeByName, List.find?_eq_none]

theorem keys_length_insert_le {V : Type} (m : GoMap V) (k : String) (v : V) :
    (m.insert k v).keys.length ≤ m.keys.length + 1 := by
  rw [AList.keys_insert]
  simp only [List.length_cons]
  have := List.length_erase_le k m.keys
  omega

/-- Each chosen node costs one unit of the remaining replica count. -/
theorem createFanOut_count (env : Env) (p : GoMap String) (tops : List Topology) (st : FanOut) :
    (createFanOut env p tops st).chosenNodes.keys.length + (createFanOut env p tops st).cacheCount
      ≤ st.chosenNodes.keys.length + st.cacheCount := by
  induction tops generalizing st with
  | nil => simp [createFanOut]
  | cons top rest ih =>
    unfold createFanOut
    by_cases h0 : st.cacheCount = 0
    · simp [h0]
    · by_cases hc : env.connect (topologyNode top) = false
      · simp only [h0, hc, if_false, if_true]
        exact ih _
      · by_cases hr : env.createVolume (topologyNode top) = false
        · simp only [h0, hc, hr, if_false, if_true]
          exact ih _
        · simp only [h0, hc, hr, if_false]
          refine le_trans (ih _) ?_
          have := keys_length_insert_le st.chosenNodes (topologyNode top) .Created
          simp only
          omega

/-- The new-volume path of `CreateVolume`, once the checks are passed. -/
theorem CreateVolume_new (cs : masterController) (env : Env) (req : CreateVolumeRequest)
    (hcaps : req.VolumeCapabilities ≠ none) (hname : req.Name ≠ "")
    (hnew : ∀ e ∈ cs.pmemVolumes.entries, e.2.name ≠ req.Name) :
    CreateVolume cs env req =
      if (newVolumeFanOut cs env req).chosenNodes.keys.length = 0 then
        ⟨.error .Unavailable, cs, (newVolumeFanOut cs env req).trace⟩
      else
        ⟨.ok ⟨{ VolumeId := env.newUUID
                CapacityBytes := GetRequiredBytes req
                AccessibleTopology := outTopology (newVolumeFanOut cs env req).chosenNodes
                VolumeContext :=
                  some (((req.Parameters.getD ∅).insert "_id" env.newUUID).erase "_id") }⟩,
          { cs with pmemVolumes := cs.pmemVolumes.insert env.newUUID (newVolume cs env req) },
          (newVolumeFanOut cs env req).trace⟩ := by
  have hnone := (getVolumeByName_eq_none cs req.Name).2 hnew
  simp [CreateVolume, ValidateControllerServiceRequest, serverCaps, hcaps, hname, hnone,
    newVolumeFanOut, newVolume]

/-- The recorded volume type is the `persistencyModel` parameter, `none` when
the request gives none. -/
theorem createParameters_fst (ps : Option (GoMap String)) :
    (createParameters ps).1 =
      ((ps.bind fun p => p.lookup pmemParameterKeyPersistencyModel).getD
        pmemPersistencyModelNone) := by
  rcases ps with _ | p
  · rfl
  · cases hpm : p.lookup pmemParameterKeyPersistencyModel with
    | none => simp [createParameters, hpm]
    | some val =>
      by_cases hv : val = pmemPersistencyModelCache
      · cases hsz : p.lookup pmemParameterKeyCacheSize with
        | none => simp [createParameters, hpm, hv, hsz]
        | some sz => cases hc : ParseUint sz <;> simp [createParameters, hpm, hv, hsz, hc]
      · simp [createParameters, hpm, hv]

theorem createParameters_not_cache (ps : Option (GoMap String))
    (h : (createParameters ps).1 ≠ pmemPersistencyModelCache) : (createParameters ps).2 = 1 := by
  rw [createParameters_fst] at h
  rcases ps with _ | p
  · rfl
  · cases hpm : p.lookup pmemParameterKeyPersistencyModel with
    | none => simp [createParameters, hpm]
    | some val =>
      have hv : val ≠ pmemPersistencyModelCache := by simpa [hpm] using h
      simp [createParameters, hpm, hv]

theorem createParameters_cache (p : GoMap String) (sz : String) (c : Nat)
    (h : (createParameters (some p)).1 = pmemPersistencyModelCache)
    (hsz : p.lookup pmemParameterKeyCacheSize = some sz) (hc : ParseUint sz = some c) :
    (createParameters (some p)).2 = c := by
  unfold createParameters at h ⊢
  simp only at h ⊢
  split
  · rename_i hpm
    rw [hpm] at h
    simp [pmemPersistencyModelNone, pmemPersistencyModelCache] at h
  · rename_i val hpm
    rw [hpm] at h
    by_cases hv : val = pmemPersistencyModelCache
    · simp [hv, hsz, hc]
    · simp [hv] at h

/-! ## CreateVolume: size of the topology -/

/-- C1: a valid CreateVolume request whose name matches no record either fails
(with Unavailable), or succeeds with as many topology entries as the newly persisted record has replica
nodes, at least one and at most the replica target: 1 unless the persistency
model is cache, the parsed cacheSize when it is. -/
theorem CreateVolume_topology_size (cs : masterController) (env : Env) (req : CreateVolumeRequest)
    (hcaps : req.VolumeCapabilities ≠ none) (hname : req.Name ≠ "")
    (hnew : ∀ e ∈ cs.pmemVolumes.entries, e.2.name ≠ req.Name) :
    (CreateVolume cs env req).result = .error .Unavailable ∨
    (∃ resp vol, (CreateVolume cs env req).result = .ok resp ∧
      (CreateVolume cs env req).cs.pmemVolumes.lookup resp.Volume.VolumeId = some vol ∧
      vol.name = req.Name ∧
      resp.Volume.AccessibleTopology.length = vol.nodeIDs.keys.length ∧
      1 ≤ vol.nodeIDs.keys.length ∧
      vol.nodeIDs.keys.length ≤ (createParameters req.Parameters).2 ∧
      (vol.volumeType ≠ pmemPersistencyModelCache → vol.nodeIDs.keys.length ≤ 1) ∧
      (∀ p sz c, req.Parameters = some p → vol.volumeType = pmemPersistencyModelCache →
        p.lookup pmemParameterKeyCacheSize = some sz → ParseUint sz = some c →
        vol.nodeIDs.keys.length ≤ c)) := by
  rw [CreateVolume_new cs env req hcaps hname hnew]
  by_cases h0 : (newVolumeFanOut cs env req).chosenNodes.keys.length = 0
  · left
    simp [h0]
  · right
    have hle : (newVolumeFanOut cs env req).chosenNodes.keys.length
        ≤ (createParameters req.Parameters).2 := by
      have := createFanOut_count env ((req.Parameters.getD ∅).insert "_id" env.newUUID)
        (candidateTopology cs req)
        { cacheCount := (createParameters req.Parameters).2, chosenNodes := ∅, trace := [] }
      simp only [AList.keys_empty, List.length_nil, zero_add] at this
      unfold newVolumeFanOut
      omega
    simp only [h0, if_false]
    refine ⟨_, newVolume cs env req, rfl, ?_, rfl, ?_, ?_, hle, ?_, ?_⟩
    · simp [AList.lookup_insert]
    · simp [outTopology, newVolume]
    · show 1 ≤ (newVolumeFanOut cs env req).chosenNodes.keys.length
      omega
    · intro hnc
      have := createParameters_not_cache req.Parameters hnc
      show (newVolumeFanOut cs env req).chosenNodes.keys.length ≤ 1
      omega
    · intro p sz c hp hcache hsz hc
      rw [hp] at hle
      have hcache' : (createParameters (some p)).1 = pmemPersistencyModelCache := by
        rw [← hp]; exact hcache
      rw [createParameters_cache p sz c hcache' hsz hc] at hle
      exact hle

/-- Witness of C1: create(v2, cache, cacheSize 2) on an empty directory, node B
unreachable. -/
theorem CreateVolume_topology_size_witness :
    (CreateVolume (NewMasterControllerServer rsABC) envB reqV2).result = .error .Unavailable ∨
    (∃ resp vol, (CreateVolume (NewMasterControllerServer rsABC) envB reqV2).result = .ok resp ∧
      (CreateVolume (NewMasterControllerServer rsABC) envB reqV2).cs.pmemVolumes.lookup
        resp.Volume.VolumeId = some vol ∧
      vol.name = reqV2.Name ∧
      resp.Volume.AccessibleTopology.length = vol.nodeIDs.keys.length ∧
      1 ≤ vol.nodeIDs.keys.length ∧
      vol.nodeIDs.keys.length ≤ (createParameters reqV2.Parameters).2 ∧
      (vol.volumeType ≠ pmemPersistencyModelCache → vol.nodeIDs.keys.length ≤ 1) ∧
      (∀ p sz c, reqV2.Parameters = some p → vol.volumeType = pmemPersistencyModelCache →
        p.lookup pmemParameterKeyCacheSize = some sz → ParseUint sz = some c →
        vol.nodeIDs.keys.length ≤ c)) :=
  CreateVolume_topology_size (NewMasterControllerServer rsABC) envB reqV2
    (by decide) (by decide) (by decide)

/-! ## CreateVolume: retry and conflict -/

/-- The existing-volume path of `CreateVolume`, when the record is large enough. -/
theorem CreateVolume_existing (cs : masterController) (env : Env) (req : CreateVolumeRequest)
    (vol : pmemVolume) (hcaps : req.VolumeCapabilities ≠ none) (hname : req.Name ≠ "")
    (hvol : getVolumeByName cs req.Name = some vol) (hsize : GetRequiredBytes req ≤ vol.size) :
    CreateVolume cs env req =
      ⟨.ok ⟨{ VolumeId := vol.id
              CapacityBytes := GetRequiredBytes req
              AccessibleTopology := outTopology vol.nodeIDs
              VolumeContext := req.Parameters }⟩, cs, []⟩ := by
  simp [CreateVolume, ValidateControllerServiceRequest, serverCaps, hcaps, hname, hvol,
    not_lt.2 hsize]

/-- The existing-volume path of `CreateVolume`, when the record is too small. -/
theorem CreateVolume_conflict (cs : masterController) (env : Env) (req : CreateVolumeRequest)
    (vol : pmemVolume) (hcaps : req.VolumeCapabilities ≠ none) (hname : req.Name ≠ "")
    (hvol : getVolumeByName cs req.Name = some vol) (hsize : vol.size < GetRequiredBytes req) :
    CreateVolume cs env req = ⟨.error .AlreadyExists, cs, []⟩ := by
  simp [CreateVolume, ValidateControllerServiceRequest, serverCaps, hcaps, hname, hvol, hsize]

/-- A request that got past the argument checks. -/
theorem CreateVolume_ok_valid (cs : masterController) (env : Env) (req : CreateVolumeRequest)
    (resp : CreateVolumeResponse) (h : (CreateVolume cs env req).result = .ok resp) :
    req.VolumeCapabilities ≠ none ∧ req.Name ≠ "" := by
  by_cases hcaps : req.VolumeCapabilities = none
  · simp [CreateVolume, ValidateControllerServiceRequest, serverCaps, hcaps] at h
  · by_cases hname : req.Name = ""
    · simp [CreateVolume, ValidateControllerServiceRequest, serverCaps, hcaps, hname] at h
    · exact ⟨hcaps, hname⟩

/-- After a successful create the directory holds, under the request's name,
a record with the returned id and topology that covers the requested size. -/
theorem CreateVolume_ok_record (cs : masterController) (env : Env) (req : CreateVolumeRequest)
    (resp : CreateVolumeResponse) (h : (CreateVolume cs env req).result = .ok resp) :
    ∃ vol, getVolumeByName (CreateVolume cs env req).cs req.Name = some vol ∧
      vol.id = resp.Volume.VolumeId ∧
      outTopology vol.nodeIDs = resp.Volume.AccessibleTopology ∧
      GetRequiredBytes req ≤ vol.size := by
  obtain ⟨hcaps, hname⟩ := CreateVolume_ok_valid cs env req resp h
  cases hvol : getVolumeByName cs req.Name with
  | some vol =>
    by_cases hsize : vol.size < GetRequiredBytes req
    · rw [CreateVolume_conflict cs env req vol hcaps hname hvol hsize] at h
      cases h
    · have hle := not_lt.1 hsize
      rw [CreateVolume_existing cs env req vol hcaps hname hvol hle] at h ⊢
      simp only [Result.ok.injEq] at h
      subst h
      exact ⟨vol, hvol, rfl, rfl, hle⟩
  | none =>
    have hnew := (getVolumeByName_eq_none cs req.Name).1 hvol
    rw [CreateVolume_new cs env req hcaps hname hnew] at h ⊢
    by_cases h0 : (newVolumeFanOut cs env req).chosenNodes.keys.length = 0
    · simp [h0] at h
    · simp only [h0, if_false, Result.ok.injEq] at h ⊢
      subst h
      refine ⟨newVolume cs env req, ?_, rfl, rfl, le_refl _⟩
      simp [getVolumeByName, AList.insert_entries, newVolume]

/-- C2: after a successful CreateVolume, a valid CreateVolume with the same name
and required bytes no larger succeeds with the same volume id and the same
topology nodes, sends nothing to any node and leaves the directory as it was. -/
theorem CreateVolume_retry (cs : masterController) (env₁ env₂ : Env)
    (req₁ req₂ : CreateVolumeRequest) (resp₁ : CreateVolumeResponse)
    (hfirst : (CreateVolume cs env₁ req₁).result = .ok resp₁)
    (hcaps : req₂.VolumeCapabilities ≠ none) (hname : req₂.Name = req₁.Name)
    (hsize : GetRequiredBytes req₂ ≤ GetRequiredBytes req₁) :
    ∃ resp₂,
      CreateVolume (CreateVolume cs env₁ req₁).cs env₂ req₂
        = ⟨.ok resp₂, (CreateVolume cs env₁ req₁).cs, []⟩ ∧
      resp₂.Volume.VolumeId = resp₁.Volume.VolumeId ∧
      resp₂.Volume.AccessibleTopology.Perm resp₁.Volume.AccessibleTopology := by
  obtain ⟨_, hname₁⟩ := CreateVolume_ok_valid cs env₁ req₁ resp₁ hfirst
  obtain ⟨vol, hvol, hid, htop, hle⟩ := CreateVolume_ok_record cs env₁ req₁ resp₁ hfirst
  rw [← hname] at hvol hname₁
  refine ⟨_, CreateVolume_existing _ env₂ req₂ vol hcaps hname₁ hvol (le_trans hsize hle), hid, ?_⟩
  rw [← htop]

/-- Witness of C2: create(v2) twice, the second time in a world without nodes. -/
theorem CreateVolume_retry_witness :
    ∃ resp₂,
      CreateVolume (CreateVolume (NewMasterControllerServer rsABC) envB reqV2).cs envNone reqV2
        = ⟨.ok resp₂, (CreateVolume (NewMasterControllerServer rsABC) envB reqV2).cs, []⟩ ∧
      resp₂.Volume.VolumeId = "id-2" ∧
      resp₂.Volume.AccessibleTopology.Perm [nodeTopology "C", nodeTopology "A"] :=
  CreateVolume_retry (NewMasterControllerServer rsABC) envB envNone reqV2 reqV2
    ⟨{ VolumeId := "id-2"
       CapacityBytes := 1073741824
       AccessibleTopology := [nodeTopology "C", nodeTopology "A"]
       VolumeContext := reqV2.Parameters }⟩
    (by decide) (by decide) rfl (by decide)

/-- The record `getVolumeByName` finds, when names are unique. -/
theorem getVolumeByName_of_lookup (cs : masterController) (id : String) (vol : pmemVolume)
    (huniq : NamesUnique cs) (hrec : cs.pmemVolumes.lookup id = some vol) :
    getVolumeByName cs vol.name = some vol := by
  have hmem : (⟨id, vol⟩ : Σ _ : String, pmemVolume) ∈ cs.pmemVolumes.entries :=
    AList.mem_lookup_iff.1 hrec
  cases hfind : cs.pmemVolumes.entries.find? (fun e => e.2.name = vol.name) with
  | none =>
    have := List.find?_eq_none.1 hfind _ hmem
    simp at this
  | some e =>
    have he : e ∈ cs.pmemVolumes.entries := List.mem_of_find?_eq_some hfind
    have hp : e.2.name = vol.name := by simpa using List.find?_some hfind
    have heq : e = ⟨id, vol⟩ := List.inj_on_of_nodup_map huniq he hmem hp
    simp [getVolumeByName, hfind, heq]

/-- C3: when the directory, in which names are unique, has a record with the
request's name and a smaller size, a valid CreateVolume fails with AlreadyExists,
sends nothing to any node and leaves the directory as it was. -/
theorem CreateVolume_larger_conflicts (cs : masterController) (env : Env)
    (req : CreateVolumeRequest) (id : String) (vol : pmemVolume)
    (huniq : NamesUnique cs) (hrec : cs.pmemVolumes.lookup id = some vol)
    (hvname : vol.name = req.Name)
    (hcaps : req.VolumeCapabilities ≠ none) (hname : req.Name ≠ "")
    (hgt : vol.size < GetRequiredBytes req) :
    CreateVolume cs env req = ⟨.error .AlreadyExists, cs, []⟩ := by
  have hvol := getVolumeByName_of_lookup cs id vol huniq hrec
  rw [hvname] at hvol
  exact CreateVolume_conflict cs env req vol hcaps hname hvol hgt

/-- Witness of C3: create(v2, 2 GiB) after create(v2, 1 GiB). -/
theorem CreateVolume_larger_conflicts_witness :
    CreateVolume csV2 envAll reqV2Large = ⟨.error .AlreadyExists, csV2, []⟩ :=
  CreateVolume_larger_conflicts csV2 envAll reqV2Large "id-2" volV2
    (by decide) (by decide) (by decide) (by decide) (by decide) (by decide)

/-! ## DeleteVolume -/

/-- Deleting an id the directory does not hold succeeds, sends nothing and
changes nothing. -/
theorem DeleteVolume_absent (cs : masterController) (env : Env) (req : DeleteVolumeRequest)
    (hid : req.VolumeId ≠ "") (habs : cs.pmemVolumes.lookup req.VolumeId = none) :
    DeleteVolume cs env req = ⟨.ok {}, cs, []⟩ := by
  simp [DeleteVolume, ValidateControllerServiceRequest, serverCaps, hid, getVolumeByID, habs]

/-- The delete loop gets through the nodes it can connect to. -/
theorem deleteFanOut_connected (env : Env) (volumeId : String) (nodes : List String)
    (trace : List Event) (hconn : ∀ n ∈ nodes, env.connect n = true) :
    (deleteFanOut env volumeId nodes trace).panicked = false := by
  induction nodes generalizing trace with
  | nil => rfl
  | cons node rest ih =>
    have hn : env.connect node = true := hconn node (List.mem_cons_self _ _)
    simp only [deleteFanOut, hn, Bool.true_eq_false, if_false]
    exact ih _ fun n h => hconn n (List.mem_cons_of_mem _ h)

/-- The delete loop stops at the first node it cannot connect to. -/
theorem deleteFanOut_unreachable (env : Env) (volumeId : String) (nodes : List String)
    (trace : List Event) (n : String) (hn : n ∈ nodes) (hconn : env.connect n = false) :
    (deleteFanOut env volumeId nodes trace).panicked = true := by
  induction nodes generalizing trace with
  | nil => cases hn
  | cons node rest ih =>
    by_cases hc : env.connect node = false
    · simp [deleteFanOut, hc]
    · have hne : n ≠ node := fun h => hc (h ▸ hconn)
      have hrest : n ∈ rest := by
        rcases List.mem_cons.1 hn with h | h
        · exact absurd h hne
        · exact h
      simp only [deleteFanOut, hc, if_false]
      exact ih _ hrest

/-- When every replica node can be connected to, deleting a record stored under
its own id succeeds and removes exactly that record, whatever the remote
deletes answer. -/
theorem DeleteVolume_connected (cs : masterController) (env : Env) (req : DeleteVolumeRequest)
    (vol : pmemVolume) (hid : req.VolumeId ≠ "")
    (hrec : cs.pmemVolumes.lookup req.VolumeId = some vol) (hkey : vol.id = req.VolumeId)
    (hconn : ∀ n ∈ vol.nodeIDs.keys, env.connect n = true) :
    (DeleteVolume cs env req).result = .ok {} ∧
    (DeleteVolume cs env req).cs.rs = cs.rs ∧
    (DeleteVolume cs env req).cs.pmemVolumes = cs.pmemVolumes.erase req.VolumeId := by
  have hloop := deleteFanOut_connected env req.VolumeId vol.nodeIDs.keys [] hconn
  simp [DeleteVolume, ValidateControllerServiceRequest, serverCaps, hid, getVolumeByID, hrec,
    hloop, hkey]

/-- When some replica node cannot be connected to, DeleteVolume runs into the
nil connection and the record stays in the directory. -/
theorem DeleteVolume_unreachable (cs : masterController) (env : Env) (req : DeleteVolumeRequest)
    (vol : pmemVolume) (n : String) (hid : req.VolumeId ≠ "")
    (hrec : cs.pmemVolumes.lookup req.VolumeId = some vol)
    (hn : n ∈ vol.nodeIDs.keys) (hconn : env.connect n = false) :
    (DeleteVolume cs env req).result = .panic ∧ (DeleteVolume cs env req).cs = cs := by
  have hloop := deleteFanOut_unreachable env req.VolumeId vol.nodeIDs.keys [] n hn hconn
  simp [DeleteVolume, ValidateControllerServiceRequest, serverCaps, hid, getVolumeByID, hrec,
    hloop]

/-- C4, at the failing input: deleting the volume id-2, provisioned on C and A,
while no node can be reached.  The first connection fails, the remote delete is
called on the nil connection, and the record is still in the directory. -/
theorem DeleteVolume_connection_failure :
    DeleteVolume csV2 envNone reqDeleteV2 = ⟨.panic, csV2, [.connect "C" false]⟩ ∧
    csV2.pmemVolumes.lookup "id-2" ≠ none := by
  decide

/-! ## ControllerPublishVolume and ControllerUnpublishVolume -/

/-- C5: a ControllerPublishVolume request with volume id, node id and capability
fails with NotFound without a record, with FailedPrecondition when the node is
no key of the replicas, with AlreadyExists when the node is Attached, each time
leaving the directory as it was; otherwise it succeeds, sets that node to
Attached and changes no other replica entry and no other record, and the same
request then fails with AlreadyExists. -/
theorem ControllerPublishVolume_cases (cs : masterController)
    (req : ControllerPublishVolumeRequest) (hid : req.VolumeId ≠ "") (hnode : req.NodeId ≠ "")
    (hcap : req.VolumeCapability ≠ none) :
    (cs.pmemVolumes.lookup req.VolumeId = none →
      ControllerPublishVolume cs req = ⟨.error .NotFound, cs, []⟩) ∧
    (∀ vol, cs.pmemVolumes.lookup req.VolumeId = some vol →
      vol.nodeIDs.lookup req.NodeId = none →
      ControllerPublishVolume cs req = ⟨.error .FailedPrecondition, cs, []⟩) ∧
    (∀ vol, cs.pmemVolumes.lookup req.VolumeId = some vol →
      vol.nodeIDs.lookup req.NodeId = some .Attached →
      ControllerPublishVolume cs req = ⟨.error .AlreadyExists, cs, []⟩) ∧
    (∀ vol state, cs.pmemVolumes.lookup req.VolumeId = some vol →
      vol.nodeIDs.lookup req.NodeId = some state → state ≠ .Attached →
      (ControllerPublishVolume cs req).result = .ok {} ∧
      (ControllerPublishVolume cs req).trace = [] ∧
      (ControllerPublishVolume cs req).cs.rs = cs.rs ∧
      (∃ vol', (ControllerPublishVolume cs req).cs.pmemVolumes.lookup req.VolumeId = some vol' ∧
        vol'.nodeIDs.lookup req.NodeId = some .Attached ∧
        (∀ n, n ≠ req.NodeId → vol'.nodeIDs.lookup n = vol.nodeIDs.lookup n) ∧
        vol'.id = vol.id ∧ vol'.name = vol.name ∧ vol'.size = vol.size ∧
        vol'.volumeType = vol.volumeType) ∧
      (∀ id, id ≠ req.VolumeId →
        (ControllerPublishVolume cs req).cs.pmemVolumes.lookup id = cs.pmemVolumes.lookup id) ∧
      ControllerPublishVolume (ControllerPublishVolume cs req).cs req
        = ⟨.error .AlreadyExists, (ControllerPublishVolume cs req).cs, []⟩) := by
  refine ⟨?_, ?_, ?_, ?_⟩
  · intro h
    simp [ControllerPublishVolume, ValidateControllerServiceRequest, serverCaps, hid, hnode,
      hcap, getVolumeByID, h]
  · intro vol h hn
    simp [ControllerPublishVolume, ValidateControllerServiceRequest, serverCaps, hid, hnode,
      hcap, getVolumeByID, h, hn]
  · intro vol h hn
    simp [ControllerPublishVolume, ValidateControllerServiceRequest, serverCaps, hid, hnode,
      hcap, getVolumeByID, h, hn]
  · intro vol state h hn hstate
    have hout : ControllerPublishVolume cs req =
        ⟨.ok {},
          { cs with pmemVolumes :=
              cs.pmemVolumes.insert req.VolumeId (vol.setNode req.NodeId .Attached) },
          []⟩ := by
      simp [ControllerPublishVolume, ValidateControllerServiceRequest, serverCaps, hid, hnode,
        hcap, getVolumeByID, h, hn, hstate]
    rw [hout]
    refine ⟨rfl, rfl, rfl, ⟨_, AList.lookup_insert _, AList.lookup_insert _, ?_, rfl, rfl, rfl,
      rfl⟩, ?_, ?_⟩
    · intro n hne
      exact AList.lookup_insert_ne hne
    · intro id hne
      exact AList.lookup_insert_ne hne
    · simp [ControllerPublishVolume, ValidateControllerServiceRequest, serverCaps, hid, hnode,
        hcap, getVolumeByID, AList.lookup_insert, pmemVolume.setNode]

/-- Witness of C5: publishing id-2 on its replica node A succeeds once, then
fails with AlreadyExists. -/
theorem ControllerPublishVolume_cases_witness :
    (ControllerPublishVolume csV2 reqPublishA).result = .ok {} ∧
    ControllerPublishVolume (ControllerPublishVolume csV2 reqPublishA).cs reqPublishA
      = ⟨.error .AlreadyExists, (ControllerPublishVolume csV2 reqPublishA).cs, []⟩ :=
  have h := (ControllerPublishVolume_cases csV2 reqPublishA (by decide) (by decide)
    (by decide)).2.2.2 volV2 .Created (by decide) (by decide) (by decide)
  ⟨h.1, h.2.2.2.2.2⟩

/-- C7: a ControllerUnpublishVolume request with a volume id fails with NotFound
and changes nothing when the directory has no such record; otherwise it
succeeds for every node id, the record then maps that node to Unattached, and
no other replica entry and no other record changes. -/
theorem ControllerUnpublishVolume_cases (cs : masterController)
    (req : ControllerUnpublishVolumeRequest) (hid : req.VolumeId ≠ "") :
    (cs.pmemVolumes.lookup req.VolumeId = none →
      ControllerUnpublishVolume cs req = ⟨.error .NotFound, cs, []⟩) ∧
    (∀ vol, cs.pmemVolumes.lookup req.VolumeId = some vol →
      (ControllerUnpublishVolume cs req).result = .ok {} ∧
      (ControllerUnpublishVolume cs req).trace = [] ∧
      (ControllerUnpublishVolume cs req).cs.rs = cs.rs ∧
      (∃ vol', (ControllerUnpublishVolume cs req).cs.pmemVolumes.lookup req.VolumeId = some vol' ∧
        vol'.nodeIDs.lookup req.NodeId = some .Unattached ∧
        (∀ n, n ≠ req.NodeId → vol'.nodeIDs.lookup n = vol.nodeIDs.lookup n) ∧
        vol'.id = vol.id ∧ vol'.name = vol.name ∧ vol'.size = vol.size ∧
        vol'.volumeType = vol.volumeType) ∧
      (∀ id, id ≠ req.VolumeId →
        (ControllerUnpublishVolume cs req).cs.pmemVolumes.lookup id
          = cs.pmemVolumes.lookup id)) := by
  refine ⟨?_, ?_⟩
  · intro h
    simp [ControllerUnpublishVolume, ValidateControllerServiceRequest, serverCaps, hid,
      getVolumeByID, h]
  · intro vol h
    have hout : ControllerUnpublishVolume cs req =
        ⟨.ok {},
          { cs with pmemVolumes :=
              cs.pmemVolumes.insert req.VolumeId (vol.setNode req.NodeId .Unattached) },
          []⟩ := by
      simp [ControllerUnpublishVolume, ValidateControllerServiceRequest, serverCaps, hid,
        getVolumeByID, h]
    rw [hout]
    refine ⟨rfl, rfl, rfl, ⟨_, AList.lookup_insert _, AList.lookup_insert _, ?_, rfl, rfl, rfl,
      rfl⟩, ?_⟩
    · intro n hne
      exact AList.lookup_insert_ne hne
    · intro id hne
      exact AList.lookup_insert_ne hne

/-- Witness of C7: unpublishing id-2 from node X, which holds no replica,
succeeds and records X as Unattached. -/
theorem ControllerUnpublishVolume_cases_witness :
    (ControllerUnpublishVolume csV2 reqUnpublishX).result = .ok {} ∧
    ∃ vol', (ControllerUnpublishVolume csV2 reqUnpublishX).cs.pmemVolumes.lookup "id-2"
        = some vol' ∧
      vol'.nodeIDs.lookup "X" = some .Unattached :=
  have h := (ControllerUnpublishVolume_cases csV2 reqUnpublishX (by decide)).2 volV2
    (by decide)
  ⟨h.1, h.2.2.2.1.imp fun _ hv => ⟨hv.1, hv.2.1⟩⟩

/-- C6, at the failing input: from the empty directory, create(v2) provisions
the volume on A and C and never contacts X; unpublish(id-2, X) then puts X into
the replicas of the record, and publish(id-2, X) succeeds. -/
theorem ControllerUnpublishVolume_adds_replica :
    createdOn (CreateVolume (NewMasterControllerServer rsABC) envB reqV2).trace = ["A", "C"] ∧
    "X" ∉ (CreateVolume (NewMasterControllerServer rsABC) envB reqV2).trace.map Event.node ∧
    (ControllerUnpublishVolume csV2 reqUnpublishX).result = .ok {} ∧
    ((ControllerUnpublishVolume csV2 reqUnpublishX).cs.pmemVolumes.lookup "id-2").map
      (fun vol => vol.nodeIDs.keys) = some ["X", "C", "A"] ∧
    (ControllerPublishVolume (ControllerUnpublishVolume csV2 reqUnpublishX).cs reqPublishX).result
      = .ok {} := by
  decide

/-! ## CreateVolume: the persisted record -/

theorem createdOn_append (t₁ t₂ : List Event) :
    createdOn (t₁ ++ t₂) = createdOn t₁ ++ createdOn t₂ := by
  induction t₁ with
  | nil => rfl
  | cons e rest ih =>
    cases e with
    | connect n ok => simpa [createdOn] using ih
    | createVolume n p ok => cases ok <;> simpa [createdOn] using ih
    | deleteVolume n v ok => simpa [createdOn] using ih
    | getCapacity n ok => simpa [createdOn] using ih

/-- The chosen nodes are the nodes of the successful remote creates, each in
state Created. -/
theorem createFanOut_chosen (env : Env) (p : GoMap String) (tops : List Topology) (st : FanOut)
    (hinv : ∀ n, st.chosenNodes.lookup n
      = if n ∈ createdOn st.trace then some .Created else none) :
    ∀ n, (createFanOut env p tops st).chosenNodes.lookup n
      = if n ∈ createdOn (createFanOut env p tops st).trace then some .Created else none := by
  induction tops generalizing st with
  | nil => simpa [createFanOut] using hinv
  | cons top rest ih =>
    unfold createFanOut
    by_cases h0 : st.cacheCount = 0
    · simpa [h0] using hinv
    · by_cases hc : env.connect (topologyNode top) = false
      · simp only [h0, hc, if_false, if_true]
        apply ih
        intro n
        simpa [createdOn_append, createdOn] using hinv n
      · by_cases hr : env.createVolume (topologyNode top) = false
        · simp only [h0, hc, hr, if_false, if_true]
          apply ih
          intro n
          simpa [createdOn_append, createdOn] using hinv n
        · simp only [h0, hc, hr, if_false]
          apply ih
          intro n
          by_cases hn : n = topologyNode top
          · subst hn
            simp [createdOn_append, createdOn, AList.lookup_insert]
          · rw [AList.lookup_insert_ne hn, hinv n]
            simp [createdOn_append, createdOn, hn]

/-- A remote create succeeds only on a candidate that the world lets connect and
create. -/
theorem createFanOut_created (env : Env) (p : GoMap String) (tops : List Topology) (st : FanOut)
    (P : String → Prop) (hP : ∀ top ∈ tops, env.connect (topologyNode top) = true →
      env.createVolume (topologyNode top) = true → P (topologyNode top))
    (hinv : ∀ n ∈ createdOn st.trace, P n) :
    ∀ n ∈ createdOn (createFanOut env p tops st).trace, P n := by
  induction tops generalizing st with
  | nil => simpa [createFanOut] using hinv
  | cons top rest ih =>
    have hrest : ∀ t ∈ rest, env.connect (topologyNode t) = true →
        env.createVolume (topologyNode t) = true → P (topologyNode t) :=
      fun t ht => hP t (List.mem_cons_of_mem _ ht)
    unfold createFanOut
    by_cases h0 : st.cacheCount = 0
    · simpa [h0] using hinv
    · by_cases hc : env.connect (topologyNode top) = false
      · simp only [h0, hc, if_false, if_true]
        apply ih _ hrest
        simpa [createdOn_append, createdOn] using hinv
      · by_cases hr : env.createVolume (topologyNode top) = false
        · simp only [h0, hc, hr, if_false, if_true]
          apply ih _ hrest
          simpa [createdOn_append, createdOn] using hinv
        · simp only [h0, hc, hr, if_false]
          apply ih _ hrest
          intro n hn
          simp only [createdOn_append, createdOn, List.mem_append, List.mem_singleton] at hn
          rcases hn with hn | hn
          · exact hinv n hn
          · subst hn
            exact hP top (List.mem_cons_self _ _) (by simpa using hc) (by simpa using hr)

theorem newVolumeFanOut_chosen (cs : masterController) (env : Env) (req : CreateVolumeRequest) :
    ∀ n, (newVolumeFanOut cs env req).chosenNodes.lookup n
      = if n ∈ createdOn (newVolumeFanOut cs env req).trace then some .Created else none := by
  unfold newVolumeFanOut
  apply createFanOut_chosen
  intro n
  simp [createdOn]

theorem newVolumeFanOut_created (cs : masterController) (env : Env) (req : CreateVolumeRequest) :
    ∀ n ∈ createdOn (newVolumeFanOut cs env req).trace,
      (∃ top ∈ candidateTopology cs req, topologyNode top = n) ∧
      env.connect n = true ∧ env.createVolume n = true := by
  unfold newVolumeFanOut
  apply createFanOut_created
  · intro top htop hc hr
    exact ⟨⟨top, htop, rfl⟩, hc, hr⟩
  · intro n hn
    simp [createdOn] at hn

/-- No node is chosen exactly when no remote create succeeded. -/
theorem newVolumeFanOut_none_chosen (cs : masterController) (env : Env)
    (req : CreateVolumeRequest) :
    (newVolumeFanOut cs env req).chosenNodes.keys.length = 0 ↔
      createdOn (newVolumeFanOut cs env req).trace = [] := by
  have hch := newVolumeFanOut_chosen cs env req
  constructor
  · intro h0
    apply List.eq_nil_iff_forall_not_mem.2
    intro n hn
    have hkeys : (newVolumeFanOut cs env req).chosenNodes.keys = [] := List.length_eq_zero.1 h0
    have hnot : n ∉ (newVolumeFanOut cs env req).chosenNodes := by
      rw [AList.mem_keys, hkeys]
      exact List.not_mem_nil n
    have hl := hch n
    rw [AList.lookup_eq_none.2 hnot, if_pos hn] at hl
    cases hl
  · intro hnil
    apply List.length_eq_zero.2
    apply List.eq_nil_iff_forall_not_mem.2
    intro n hn
    have hl := hch n
    rw [hnil] at hl
    have hmem : n ∈ (newVolumeFanOut cs env req).chosenNodes := AList.mem_keys.2 hn
    exact (AList.lookup_eq_none.1 (by simpa using hl)) hmem

/-- C8: for a valid CreateVolume request whose name matches no record, the new
id being fresh: when no candidate completes the connection and the remote
create, the call fails with Unavailable and the directory is unchanged;
otherwise the directory gains exactly one record, under the returned id, with
the request's name, required bytes and persistency model, whose replicas are
exactly the nodes that succeeded, each Created, every other record unchanged. -/
theorem CreateVolume_persists (cs : masterController) (env : Env) (req : CreateVolumeRequest)
    (hcaps : req.VolumeCapabilities ≠ none) (hname : req.Name ≠ "")
    (hnew : ∀ e ∈ cs.pmemVolumes.entries, e.2.name ≠ req.Name)
    (hfresh : cs.pmemVolumes.lookup env.newUUID = none) :
    (∀ n ∈ createdOn (CreateVolume cs env req).trace,
      (∃ top ∈ candidateTopology cs req, topologyNode top = n) ∧
      env.connect n = true ∧ env.createVolume n = true) ∧
    ((∀ top ∈ candidateTopology cs req, env.connect (topologyNode top) = false ∨
        env.createVolume (topologyNode top) = false) →
      createdOn (CreateVolume cs env req).trace = []) ∧
    (createdOn (CreateVolume cs env req).trace = [] →
      (CreateVolume cs env req).result = .error .Unavailable ∧
      (CreateVolume cs env req).cs = cs) ∧
    (createdOn (CreateVolume cs env req).trace ≠ [] →
      ∃ resp vol, (CreateVolume cs env req).result = .ok resp ∧
        (CreateVolume cs env req).cs.rs = cs.rs ∧
        cs.pmemVolumes.lookup resp.Volume.VolumeId = none ∧
        (CreateVolume cs env req).cs.pmemVolumes.lookup resp.Volume.VolumeId = some vol ∧
        (∀ id, id ≠ resp.Volume.VolumeId →
          (CreateVolume cs env req).cs.pmemVolumes.lookup id = cs.pmemVolumes.lookup id) ∧
        (CreateVolume cs env req).cs.pmemVolumes.keys.length = cs.pmemVolumes.keys.length + 1 ∧
        vol.id = resp.Volume.VolumeId ∧
        vol.name = req.Name ∧
        vol.size = GetRequiredBytes req ∧
        vol.volumeType = ((req.Parameters.bind fun p =>
          p.lookup pmemParameterKeyPersistencyModel).getD pmemPersistencyModelNone) ∧
        ∀ n, vol.nodeIDs.lookup n
          = if n ∈ createdOn (CreateVolume cs env req).trace then some .Created else none) := by
  have htrace : (CreateVolume cs env req).trace = (newVolumeFanOut cs env req).trace := by
    rw [CreateVolume_new cs env req hcaps hname hnew]
    split <;> rfl
  have hcreated := newVolumeFanOut_created cs env req
  rw [htrace]
  refine ⟨hcreated, ?_, ?_, ?_⟩
  · intro hfail
    apply List.eq_nil_iff_forall_not_mem.2
    intro n hn
    obtain ⟨⟨top, htop, rfl⟩, hc, hr⟩ := hcreated n hn
    rcases hfail top htop with h | h
    · rw [h] at hc
      cases hc
    · rw [h] at hr
      cases hr
  · intro hnil
    have h0 := (newVolumeFanOut_none_chosen cs env req).2 hnil
    rw [CreateVolume_new cs env req hcaps hname hnew]
    simp [h0]
  · intro hne
    have h0 : ¬ (newVolumeFanOut cs env req).chosenNodes.keys.length = 0 :=
      fun h => hne ((newVolumeFanOut_none_chosen cs env req).1 h)
    rw [CreateVolume_new cs env req hcaps hname hnew, if_neg h0]
    refine ⟨_, newVolume cs env req, rfl, rfl, hfresh, AList.lookup_insert _, ?_, ?_, rfl, rfl,
      rfl, createParameters_fst _, newVolumeFanOut_chosen cs env req⟩
    · intro id hid
      exact AList.lookup_insert_ne hid
    · have hnot : env.newUUID ∉ cs.pmemVolumes.keys :=
        fun h => AList.lookup_eq_none.1 hfresh (AList.mem_keys.2 h)
      simp [AList.keys_insert, List.erase_of_not_mem hnot]

/-- Witness of C8: create(v2, cache, cacheSize 2) on an empty directory, node B
unreachable, leaves one record with replicas on A and C. -/
theorem CreateVolume_persists_witness :
    ∃ resp vol, (CreateVolume (NewMasterControllerServer rsABC) envB reqV2).result = .ok resp ∧
      (CreateVolume (NewMasterControllerServer rsABC) envB reqV2).cs.pmemVolumes.lookup
        resp.Volume.VolumeId = some vol ∧
      (CreateVolume (NewMasterControllerServer rsABC) envB reqV2).cs.pmemVolumes.keys.length
        = 1 ∧
      vol.name = "v2" ∧ vol.size = 1073741824 ∧
      ∀ n, vol.nodeIDs.lookup n = if n ∈ ["A", "C"] then some .Created else none :=
  have h := (CreateVolume_persists (NewMasterControllerServer rsABC) envB reqV2
    (by decide) (by decide) (by decide) (by decide)).2.2.2 (by decide)
  h.imp fun _ hr => hr.imp fun _ hv =>
    ⟨hv.1, hv.2.2.2.1, hv.2.2.2.2.2.1, hv.2.2.2.2.2.2.2.1, hv.2.2.2.2.2.2.2.2.1,
      hv.2.2.2.2.2.2.2.2.2.2⟩

/-! ## GetCapacity -/

theorem wrapInt64_wrapInt64 (x : Int) : wrapInt64 (wrapInt64 x) = wrapInt64 x := by
  unfold wrapInt64
  omega

theorem wrapInt64_add (x y : Int) : wrapInt64 (wrapInt64 x + y) = wrapInt64 (x + y) := by
  unfold wrapInt64
  omega

theorem wrapInt64_range (x : Int) : -2 ^ 63 ≤ wrapInt64 x ∧ wrapInt64 x < 2 ^ 63 := by
  unfold wrapInt64
  omega

/-- What a node contributes: its reported capacity when the connection and the
remote call both succeed. -/
theorem getNodeCapacity_fst (env : Env) (node : NodeInfo) :
    (getNodeCapacity env node).1
      = if env.connect node.NodeID = true then env.getCapacity node.NodeID else none := by
  unfold getNodeCapacity
  by_cases hc : env.connect node.NodeID = true
  · cases hg : env.getCapacity node.NodeID <;> simp [hc, hg]
  · simp [hc]

/-- The loop adds up, in 64 bits, what the successful nodes report. -/
theorem capacityFanOut_fst (env : Env) (nodes : List NodeInfo) (capacity : Int)
    (trace : List Event) (hcap : wrapInt64 capacity = capacity) :
    (capacityFanOut env nodes capacity trace).1
      = wrapInt64 (capacity + (nodes.filterMap fun node =>
          if env.connect node.NodeID = true then env.getCapacity node.NodeID else none).sum) := by
  induction nodes generalizing capacity trace with
  | nil => simpa [capacityFanOut] using hcap.symm
  | cons node rest ih =>
    have hfst := getNodeCapacity_fst env node
    unfold capacityFanOut
    cases hnode : getNodeCapacity env node with
    | mk r events =>
      rw [hnode] at hfst
      simp only at hfst
      cases r with
      | none =>
        simp only [List.filterMap_cons, ← hfst]
        exact ih capacity _ hcap
      | some c =>
        simp only [List.filterMap_cons, ← hfst, List.sum_cons]
        rw [ih _ _ (wrapInt64_wrapInt64 _), wrapInt64_add, add_assoc]

/-- C9: GetCapacity never fails and returns the 64-bit sum of the capacities
reported by the known nodes whose connection and remote GetCapacity both
succeed; failing nodes add nothing, and without a successful node the result
is 0. -/
theorem GetCapacity_sum (cs : masterController) (env : Env) :
    (GetCapacity cs env).result
      = .ok { AvailableCapacity :=
          wrapInt64 ((cs.rs.nodeClients.entries.map fun e => e.2).filterMap fun node =>
            if env.connect node.NodeID = true then env.getCapacity node.NodeID else none).sum } ∧
    (GetCapacity cs env).cs = cs ∧
    ((∀ e ∈ cs.rs.nodeClients.entries,
        env.connect e.2.NodeID = false ∨ env.getCapacity e.2.NodeID = none) →
      (GetCapacity cs env).result = .ok { AvailableCapacity := 0 }) := by
  have hres : (GetCapacity cs env).result
      = .ok { AvailableCapacity :=
          wrapInt64 ((cs.rs.nodeClients.entries.map fun e => e.2).filterMap fun node =>
            if env.connect node.NodeID = true then env.getCapacity node.NodeID else none).sum } := by
    have h := capacityFanOut_fst env (cs.rs.nodeClients.entries.map fun e => e.2) 0 [] (by decide)
    simp only [zero_add] at h
    simp [GetCapacity, ValidateControllerServiceRequest, serverCaps, h]
  refine ⟨hres, ?_, ?_⟩
  · simp [GetCapacity, ValidateControllerServiceRequest, serverCaps]
  · intro hfail
    rw [hres]
    have hnil : ((cs.rs.nodeClients.entries.map fun e => e.2).filterMap fun node =>
        if env.connect node.NodeID = true then env.getCapacity node.NodeID else none) = [] := by
      apply List.filterMap_eq_nil_iff.2
      intro node hnode
      obtain ⟨e, he, rfl⟩ := List.mem_map.1 hnode
      rcases hfail e he with h | h
      · simp [h]
      · simp [h]
    rw [hnil]
    rfl

/-- The example of the specification: A reports 500 and B cannot be reached. -/
theorem GetCapacity_example :
    GetCapacity (NewMasterControllerServer rsAB) envB
      = ⟨.ok { AvailableCapacity := 500 }, NewMasterControllerServer rsAB,
          [.connect "A" true, .getCapacity "A" true, .connect "B" false]⟩ := by
  decide

/-! ## ValidateVolumeCapabilities -/

/-- C10, at the failing input: validating the existing volume id-2 against a
capability without access mode.  The nil-safe getters read the mode as UNKNOWN,
and building the message dereferences the nil access mode. -/
theorem ValidateVolumeCapabilities_nil_access_mode :
    ValidateVolumeCapabilities csV2 reqValidateNoMode = ⟨.panic, csV2, []⟩ ∧
    csV2.pmemVolumes.lookup reqValidateNoMode.VolumeId ≠ none := by
  decide

/-- The loop lets every capability pass exactly when each one asks for
SINGLE_NODE_WRITER. -/
theorem validateCapabilities_eq_none (caps : List VolumeCapability) :
    validateCapabilities caps = none ↔
      ∀ cap ∈ caps, GetMode cap = VolumeCapability_AccessMode_SINGLE_NODE_WRITER := by
  induction caps with
  | nil => simp [validateCapabilities]
  | cons cap rest ih =>
    unfold validateCapabilities
    by_cases hm : GetMode cap = VolumeCapability_AccessMode_SINGLE_NODE_WRITER
    · simp [hm, ih]
    · cases hacc : cap.AccessMode <;> simp [hm]

/-- When every capability carries an access mode, the loop never dereferences
nil: it lets all pass or answers without confirmation, with a message. -/
theorem validateCapabilities_modes (caps : List VolumeCapability)
    (hmodes : ∀ cap ∈ caps, cap.AccessMode ≠ none) :
    validateCapabilities caps = none ∨
      ∃ msg, msg ≠ "" ∧ validateCapabilities caps = some (.ok { Confirmed := none, Message := msg }) := by
  induction caps with
  | nil => exact Or.inl rfl
  | cons cap rest ih =>
    unfold validateCapabilities
    by_cases hm : GetMode cap = VolumeCapability_AccessMode_SINGLE_NODE_WRITER
    · simp only [hm, ne_eq, not_true_eq_false, if_false]
      exact ih fun c hc => hmodes c (List.mem_cons_of_mem _ hc)
    · right
      cases hacc : cap.AccessMode with
      | none => exact absurd hacc (hmodes cap (List.mem_cons_self _ _))
      | some am =>
        refine ⟨"Driver does not support '" ++ modeString am.Mode ++ "' mode", ?_, by simp [hm]⟩
        intro hempty
        have hlen := congrArg String.length hempty
        simp only [String.length_append] at hlen
        have h6 : "' mode".length = 6 := by decide
        have h0 : "".length = 0 := by decide
        omega

/-- What ValidateVolumeCapabilities does on requests whose capabilities all
carry an access mode: NotFound without a record, also when the capabilities
are absent; InvalidArgument for absent capabilities on an existing id;
otherwise no error, the result confirmed, with the request's capabilities and
context, exactly when every mode is SINGLE_NODE_WRITER, and unconfirmed with a
message when some mode differs.  The directory never changes. -/
theorem ValidateVolumeCapabilities_cases (cs : masterController)
    (req : ValidateVolumeCapabilitiesRequest) (hid : req.VolumeId ≠ "") :
    (cs.pmemVolumes.lookup req.VolumeId = none →
      ValidateVolumeCapabilities cs req = ⟨.error .NotFound, cs, []⟩) ∧
    (cs.pmemVolumes.lookup req.VolumeId ≠ none → req.VolumeCapabilities = none →
      ValidateVolumeCapabilities cs req = ⟨.error .InvalidArgument, cs, []⟩) ∧
    (∀ caps, cs.pmemVolumes.lookup req.VolumeId ≠ none → req.VolumeCapabilities = some caps →
      (∀ cap ∈ caps, cap.AccessMode ≠ none) →
      ((∀ cap ∈ caps, GetMode cap = VolumeCapability_AccessMode_SINGLE_NODE_WRITER) →
        ValidateVolumeCapabilities cs req
          = ⟨.ok { Confirmed := some { VolumeCapabilities := req.VolumeCapabilities
                                       VolumeContext := req.VolumeContext }
                   Message := "" }, cs, []⟩) ∧
      (¬ (∀ cap ∈ caps, GetMode cap = VolumeCapability_AccessMode_SINGLE_NODE_WRITER) →
        ∃ msg, msg ≠ "" ∧
          ValidateVolumeCapabilities cs req
            = ⟨.ok { Confirmed := none, Message := msg }, cs, []⟩)) := by
  refine ⟨?_, ?_, ?_⟩
  · intro h
    simp [ValidateVolumeCapabilities, hid, h]
  · intro h hcaps
    obtain ⟨vol, hvol⟩ := Option.ne_none_iff_exists'.1 h
    simp [ValidateVolumeCapabilities, hid, hvol, hcaps]
  · intro caps h hcaps hmodes
    obtain ⟨vol, hvol⟩ := Option.ne_none_iff_exists'.1 h
    refine ⟨?_, ?_⟩
    · intro hall
      have hnone := (validateCapabilities_eq_none caps).2 hall
      simp [ValidateVolumeCapabilities, hid, hvol, hcaps, hnone]
    · intro hnot
      rcases validateCapabilities_modes caps hmodes with hnone | ⟨msg, hmsg, hsome⟩
      · exact absurd ((validateCapabilities_eq_none caps).1 hnone) hnot
      · exact ⟨msg, hmsg, by simp [ValidateVolumeCapabilities, hid, hvol, hcaps, hsome]⟩

/-! ## Argument checks -/

/-- C11: CreateVolume without capabilities or with an empty name, DeleteVolume
with an empty volume id, ControllerPublishVolume with an empty volume id, an
empty node id or no capability, ControllerUnpublishVolume with an empty volume
id and ValidateVolumeCapabilities with an empty volume id all fail with
InvalidArgument, send nothing to any node and leave the directory as it was. -/
theorem invalid_argument_cases (cs : masterController) (env : Env) :
    (∀ req : CreateVolumeRequest, req.VolumeCapabilities = none ∨ req.Name = "" →
      CreateVolume cs env req = ⟨.error .InvalidArgument, cs, []⟩) ∧
    (∀ req : DeleteVolumeRequest, req.VolumeId = "" →
      DeleteVolume cs env req = ⟨.error .InvalidArgument, cs, []⟩) ∧
    (∀ req : ControllerPublishVolumeRequest,
      req.VolumeId = "" ∨ req.NodeId = "" ∨ req.VolumeCapability = none →
      ControllerPublishVolume cs req = ⟨.error .InvalidArgument, cs, []⟩) ∧
    (∀ req : ControllerUnpublishVolumeRequest, req.VolumeId = "" →
      ControllerUnpublishVolume cs req = ⟨.error .InvalidArgument, cs, []⟩) ∧
    (∀ req : ValidateVolumeCapabilitiesRequest, req.VolumeId = "" →
      ValidateVolumeCapabilities cs req = ⟨.error .InvalidArgument, cs, []⟩) := by
  refine ⟨?_, ?_, ?_, ?_, ?_⟩
  · intro req h
    by_cases hcaps : req.VolumeCapabilities = none
    · simp [CreateVolume, ValidateControllerServiceRequest, serverCaps, hcaps]
    · have hname : req.Name = "" := h.resolve_left hcaps
      simp [CreateVolume, ValidateControllerServiceRequest, serverCaps, hcaps, hname]
  · intro req h
    simp [DeleteVolume, ValidateControllerServiceRequest, serverCaps, h]
  · intro req h
    by_cases hid : req.VolumeId = ""
    · simp [ControllerPublishVolume, ValidateControllerServiceRequest, serverCaps, hid]
    · by_cases hnode : req.NodeId = ""
      · simp [ControllerPublishVolume, ValidateControllerServiceRequest, serverCaps, hid, hnode]
      · have hcap : req.VolumeCapability = none := (h.resolve_left hid).resolve_left hnode
        simp [ControllerPublishVolume, ValidateControllerServiceRequest, serverCaps, hid, hnode,
          hcap]
  · intro req h
    simp [ControllerUnpublishVolume, ValidateControllerServiceRequest, serverCaps, h]
  · intro req h
    simp [ValidateVolumeCapabilities, h]

/-- Instance of C11: a publish request without node id on the directory that
holds id-2. -/
theorem invalid_argument_cases_witness :
    ControllerPublishVolume csV2 { reqPublishA with NodeId := "" }
      = ⟨.error .InvalidArgument, csV2, []⟩ :=
  (invalid_argument_cases csV2 envAll).2.2.1 { reqPublishA with NodeId := "" }
    (Or.inr (Or.inl rfl))

/-! ## CreateVolume: the volume context -/

/-- Inserting a key and erasing it again erases the key. -/
theorem erase_insert_self {V : Type} (m : GoMap V) (k : String) (v : V) :
    (m.insert k v).erase k = m.erase k := by
  apply AList.ext
  simp [AList.insert_entries, AList.erase]

/-- Erasing a key a map does not hold leaves the map as it is. -/
theorem erase_of_not_mem {V : Type} (m : GoMap V) (k : String) (h : k ∉ m) : m.erase k = m := by
  apply AList.ext
  simp only [AList.erase]
  exact List.kerase_of_not_mem_keys h

/-- C12, as stated, fails: on an empty directory, the caller of create(v3)
supplies the parameter _id = mine, and the response carries an empty volume
context. -/
theorem CreateVolume_context_drops_caller_id :
    (CreateVolume (NewMasterControllerServer rsABC) envAll reqOwnId).result
      = .ok ⟨{ VolumeId := "id-1"
               CapacityBytes := 0
               AccessibleTopology := [nodeTopology "A"]
               VolumeContext := some ∅ }⟩ ∧
    reqOwnId.Parameters = some ((∅ : GoMap String).insert "_id" "mine") ∧
    (∅ : GoMap String) ≠ (∅ : GoMap String).insert "_id" "mine" := by
  decide

/-- C12, amended: a successful CreateVolume on the retry path echoes the
parameters as the caller supplied them; on the new-volume path it echoes them
(an absent map as an empty one) without the key _id, so _id is never visible
there; and whenever the caller supplied no _id the volume context equals the
supplied parameters, an absent map counting as empty. -/
theorem CreateVolume_context (cs : masterController) (env : Env) (req : CreateVolumeRequest)
    (resp : CreateVolumeResponse) (hok : (CreateVolume cs env req).result = .ok resp) :
    (getVolumeByName cs req.Name ≠ none → resp.Volume.VolumeContext = req.Parameters) ∧
    (getVolumeByName cs req.Name = none →
      resp.Volume.VolumeContext = some ((req.Parameters.getD ∅).erase "_id") ∧
      "_id" ∉ resp.Volume.VolumeContext.getD ∅) ∧
    ("_id" ∉ req.Parameters.getD ∅ →
      resp.Volume.VolumeContext.getD ∅ = req.Parameters.getD ∅) := by
  obtain ⟨hcaps, hname⟩ := CreateVolume_ok_valid cs env req resp hok
  cases hvol : getVolumeByName cs req.Name with
  | some vol =>
    have hle : GetRequiredBytes req ≤ vol.size := by
      by_contra hlt
      rw [CreateVolume_conflict cs env req vol hcaps hname hvol (not_le.1 hlt)] at hok
      cases hok
    rw [CreateVolume_existing cs env req vol hcaps hname hvol hle] at hok
    simp only [Result.ok.injEq] at hok
    subst hok
    simp
  | none =>
    have hnew := (getVolumeByName_eq_none cs req.Name).1 hvol
    rw [CreateVolume_new cs env req hcaps hname hnew] at hok
    by_cases h0 : (newVolumeFanOut cs env req).chosenNodes.keys.length = 0
    · simp [h0] at hok
    · simp only [h0, if_false, Result.ok.injEq] at hok
      subst hok
      have hctx := erase_insert_self (req.Parameters.getD ∅) "_id" env.newUUID
      refine ⟨fun h => absurd rfl h, fun _ => ⟨congrArg some hctx, ?_⟩, fun h => ?_⟩
      · simp [AList.mem_erase]
      · simp only [Option.getD_some]
        rw [hctx]
        exact erase_of_not_mem _ _ h

/-- Instance of C12, amended: create(v3) with the caller's parameter _id on an
empty directory answers with the parameters without _id. -/
theorem CreateVolume_context_witness :
    (some ∅ : Option (GoMap String)) = some ((reqOwnId.Parameters.getD ∅).erase "_id") ∧
    "_id" ∉ (some ∅ : Option (GoMap String)).getD ∅ :=
  (CreateVolume_context (NewMasterControllerServer rsABC) envAll reqOwnId
    ⟨{ VolumeId := "id-1"
       CapacityBytes := 0
       AccessibleTopology := [nodeTopology "A"]
       VolumeContext := some ∅ }⟩
    (by decide)).2.1 (by decide)

/-! ## ListVolumes -/

/-- C13: ListVolumes succeeds with one entry per record of the directory,
carrying the record's id and requested size, so with as many entries as
records, and leaves the directory as it was. -/
theorem ListVolumes_entries (cs : masterController) :
    ∃ resp, ListVolumes cs = ⟨.ok resp, cs, []⟩ ∧
      (resp.Entries.map fun e => (e.Volume.VolumeId, e.Volume.CapacityBytes)).Perm
        (cs.pmemVolumes.entries.map fun e => (e.2.id, e.2.size)) ∧
      resp.Entries.length = cs.pmemVolumes.keys.length := by
  have h : ListVolumes cs =
      ⟨.ok { Entries := cs.pmemVolumes.entries.map fun e =>
               { Volume := { VolumeId := e.2.id
                             CapacityBytes := e.2.size
                             AccessibleTopology := []
                             VolumeContext := none } } },
        cs, []⟩ := by
    simp [ListVolumes, ValidateControllerServiceRequest, serverCaps]
  refine ⟨_, h, ?_, ?_⟩
  · simp [List.map_map, Function.comp_def]
  · simp [AList.keys, List.keys]

/-! ## CreateVolume: which nodes are contacted and chosen -/

theorem contacted_append (t₁ t₂ : List Event) :
    contacted (t₁ ++ t₂) = contacted t₁ ++ contacted t₂ := by
  induction t₁ with
  | nil => rfl
  | cons e rest ih => cases e <;> simpa [contacted] using ih

/-- The loop contacts a prefix of the candidates: it goes on while replicas are
missing, creates on each contacted node that the world lets succeed, and stops
right after the success that fills the target. -/
theorem createFanOut_prefix (env : Env) (p : GoMap String) (tops : List Topology) (st : FanOut) :
    ∃ c rest, tops.map topologyNode = c ++ rest ∧
      contacted (createFanOut env p tops st).trace = contacted st.trace ++ c ∧
      createdOn (createFanOut env p tops st).trace
        = createdOn st.trace ++ c.filter env.creates ∧
      (c.filter env.creates).length ≤ st.cacheCount ∧
      (rest ≠ [] → (c.filter env.creates).length = st.cacheCount) ∧
      (∀ pre post, c = pre ++ post → post ≠ [] →
        (pre.filter env.creates).length < st.cacheCount) := by
  induction tops generalizing st with
  | nil =>
    refine ⟨[], [], rfl, by simp [createFanOut], by simp [createFanOut], by simp, by simp, ?_⟩
    intro pre post h hpost
    exact absurd (List.append_eq_nil.1 h.symm).2 hpost
  | cons top r ih =>
    by_cases h0 : st.cacheCount = 0
    · refine ⟨[], topologyNode top :: r.map topologyNode, by simp, by simp [createFanOut, h0],
        by simp [createFanOut, h0], by simp, by simp [h0], ?_⟩
      intro pre post h hpost
      exact absurd (List.append_eq_nil.1 h.symm).2 hpost
    · have hpos : 0 < st.cacheCount := Nat.pos_of_ne_zero h0
      by_cases hs : env.creates (topologyNode top) = true
      · have hc : env.connect (topologyNode top) = true := by
          simp only [Env.creates, Bool.and_eq_true] at hs
          exact hs.1
        have hr : env.createVolume (topologyNode top) = true := by
          simp only [Env.creates, Bool.and_eq_true] at hs
          exact hs.2
        obtain ⟨c, rest, hsplit, hcont, hcre, hle, hrest, hpre⟩ := ih
          { cacheCount := st.cacheCount - 1
            chosenNodes := st.chosenNodes.insert (topologyNode top) .Created
            trace := st.trace ++ [.connect (topologyNode top) true,
              .createVolume (topologyNode top) p true] }
        have hstep : createFanOut env p (top :: r) st = createFanOut env p r
            { cacheCount := st.cacheCount - 1
              chosenNodes := st.chosenNodes.insert (topologyNode top) .Created
              trace := st.trace ++ [.connect (topologyNode top) true,
                .createVolume (topologyNode top) p true] } := by
          simp [createFanOut, h0, hc, hr]
        simp only at hcont hcre hle hrest hpre
        refine ⟨topologyNode top :: c, rest, by simp [hsplit], ?_, ?_, ?_, ?_, ?_⟩
        · rw [hstep, hcont]
          simp [contacted_append, contacted]
        · rw [hstep, hcre]
          simp [createdOn_append, createdOn, hs]
        · simp only [List.filter_cons, hs, if_true, List.length_cons]
          omega
        · intro hne
          have := hrest hne
          simp only [List.filter_cons, hs, if_true, List.length_cons]
          omega
        · intro pre post h hpost
          cases pre with
          | nil => simpa using hpos
          | cons x pre' =>
            simp only [List.cons_append, List.cons.injEq] at h
            obtain ⟨hx, hcp⟩ := h
            have := hpre pre' post hcp hpost
            subst hx
            simp only [List.filter_cons, hs, if_true, List.length_cons]
            omega
      · have hsf : env.creates (topologyNode top) = false := by simpa using hs
        obtain ⟨tr, hstep, hcon, hcr⟩ : ∃ tr, createFanOut env p (top :: r) st
            = createFanOut env p r { st with trace := st.trace ++ tr } ∧
            contacted tr = [topologyNode top] ∧ createdOn tr = [] := by
          by_cases hc : env.connect (topologyNode top) = false
          · exact ⟨[.connect (topologyNode top) false], by simp [createFanOut, h0, hc],
              rfl, rfl⟩
          · have hr : env.createVolume (topologyNode top) = false := by
              simp only [Env.creates, Bool.and_eq_false_iff] at hsf
              exact hsf.resolve_left hc
            exact ⟨[.connect (topologyNode top) true, .createVolume (topologyNode top) p false],
              by simp [createFanOut, h0, hc, hr], rfl, rfl⟩
        obtain ⟨c, rest, hsplit, hcont, hcre, hle, hrest, hpre⟩ := ih
          { st with trace := st.trace ++ tr }
        simp only at hcont hcre hle hrest hpre
        refine ⟨topologyNode top :: c, rest, by simp [hsplit], ?_, ?_, ?_, ?_, ?_⟩
        · rw [hstep, hcont]
          simp [contacted_append, hcon]
        · rw [hstep, hcre]
          simp [createdOn_append, hcr, hsf]
        · simpa [List.filter_cons, hsf] using hle
        · intro hne
          simpa [List.filter_cons, hsf] using hrest hne
        · intro pre post h hpost
          cases pre with
          | nil => simpa using hpos
          | cons x pre' =>
            simp only [List.cons_append, List.cons.injEq] at h
            obtain ⟨hx, hcp⟩ := h
            have := hpre pre' post hcp hpost
            subst hx
            simpa [List.filter_cons, hsf] using this

theorem topologyNode_nodeTopology (node : String) : topologyNode (nodeTopology node) = node := by
  simp [topologyNode, nodeTopology, AList.lookup, AList.singleton]

theorem newVolumeFanOut_prefix (cs : masterController) (env : Env) (req : CreateVolumeRequest) :
    ∃ rest, candidateNodes cs req = contacted (newVolumeFanOut cs env req).trace ++ rest ∧
      createdOn (newVolumeFanOut cs env req).trace
        = (contacted (newVolumeFanOut cs env req).trace).filter env.creates ∧
      ((contacted (newVolumeFanOut cs env req).trace).filter env.creates).length
        ≤ (createParameters req.Parameters).2 ∧
      (rest ≠ [] → ((contacted (newVolumeFanOut cs env req).trace).filter env.creates).length
        = (createParameters req.Parameters).2) ∧
      (∀ pre post, contacted (newVolumeFanOut cs env req).trace = pre ++ post → post ≠ [] →
        (pre.filter env.creates).length < (createParameters req.Parameters).2) := by
  obtain ⟨c, rest, hsplit, hcont, hcre, hle, hrest, hpre⟩ :=
    createFanOut_prefix env ((req.Parameters.getD ∅).insert "_id" env.newUUID)
      (candidateTopology cs req)
      { cacheCount := (createParameters req.Parameters).2, chosenNodes := ∅, trace := [] }
  simp only [contacted, createdOn, List.nil_append] at hcont hcre hle hrest hpre
  have hc : contacted (newVolumeFanOut cs env req).trace = c := hcont
  have hcr : createdOn (newVolumeFanOut cs env req).trace = c.filter env.creates := hcre
  rw [hc, hcr]
  exact ⟨rest, hsplit, rfl, hle, hrest, hpre⟩

/-- The remote creates succeed on the first succeeding candidates, in order, up
to the replica target. -/
theorem newVolumeFanOut_createdOn (cs : masterController) (env : Env)
    (req : CreateVolumeRequest) :
    createdOn (newVolumeFanOut cs env req).trace = firstCreated cs env req := by
  obtain ⟨rest, hsplit, hcre, hle, hrest, -⟩ := newVolumeFanOut_prefix cs env req
  unfold firstCreated
  rw [hsplit, List.filter_append, hcre]
  by_cases hnil : rest = []
  · subst hnil
    simp only [List.filter_nil, List.append_nil]
    exact (List.take_of_length_le hle).symm
  · exact (List.take_left' (hrest hnil)).symm

/-- C15: for a valid CreateVolume request whose name matches no record and whose
candidate nodes are pairwise distinct, the remote creates succeed on, and the
chosen nodes are, exactly the first succeeding candidates in candidate order,
min(target, number of succeeding candidates) of them; the contacted nodes are a
prefix of the candidates that reaches the end of the list unless the target is
met, and stops right after the success that meets it. -/
theorem CreateVolume_chooses_first (cs : masterController) (env : Env)
    (req : CreateVolumeRequest)
    (hcaps : req.VolumeCapabilities ≠ none) (hname : req.Name ≠ "")
    (hnew : ∀ e ∈ cs.pmemVolumes.entries, e.2.name ≠ req.Name)
    (hdistinct : (candidateNodes cs req).Nodup) :
    createdOn (CreateVolume cs env req).trace = firstCreated cs env req ∧
    (firstCreated cs env req).length
      = min (createParameters req.Parameters).2
          ((candidateNodes cs req).filter env.creates).length ∧
    (∃ rest, candidateNodes cs req = contacted (CreateVolume cs env req).trace ++ rest ∧
      (rest ≠ [] → ((contacted (CreateVolume cs env req).trace).filter env.creates).length
        = (createParameters req.Parameters).2) ∧
      (∀ pre post, contacted (CreateVolume cs env req).trace = pre ++ post → post ≠ [] →
        (pre.filter env.creates).length < (createParameters req.Parameters).2)) ∧
    (firstCreated cs env req = [] → (CreateVolume cs env req).result = .error .Unavailable) ∧
    (firstCreated cs env req ≠ [] →
      ∃ resp vol, (CreateVolume cs env req).result = .ok resp ∧
        (CreateVolume cs env req).cs.pmemVolumes.lookup resp.Volume.VolumeId = some vol ∧
        (∀ n, vol.nodeIDs.lookup n
          = if n ∈ firstCreated cs env req then some .Created else none) ∧
        vol.nodeIDs.keys.Perm (firstCreated cs env req) ∧
        (resp.Volume.AccessibleTopology.map topologyNode).Perm (firstCreated cs env req)) := by
  have htrace : (CreateVolume cs env req).trace = (newVolumeFanOut cs env req).trace := by
    rw [CreateVolume_new cs env req hcaps hname hnew]
    split <;> rfl
  have hcre := newVolumeFanOut_createdOn cs env req
  have hch := newVolumeFanOut_chosen cs env req
  rw [hcre] at hch
  rw [htrace]
  refine ⟨hcre, by simp [firstCreated, List.length_take], ?_, ?_, ?_⟩
  · obtain ⟨rest, hsplit, -, -, hrest, hpre⟩ := newVolumeFanOut_prefix cs env req
    exact ⟨rest, hsplit, hrest, hpre⟩
  · intro hnil
    have h0 := (newVolumeFanOut_none_chosen cs env req).2 (hcre.trans hnil)
    rw [CreateVolume_new cs env req hcaps hname hnew]
    simp [h0]
  · intro hne
    have h0 : ¬ (newVolumeFanOut cs env req).chosenNodes.keys.length = 0 :=
      fun h => hne (hcre.symm.trans ((newVolumeFanOut_none_chosen cs env req).1 h))
    have hperm : (newVolumeFanOut cs env req).chosenNodes.keys.Perm (firstCreated cs env req) := by
      apply (List.perm_ext_iff_of_nodup (AList.keys_nodup _) ?_).2
      · intro n
        rw [← AList.mem_keys, ← AList.lookup_isSome, hch n]
        by_cases hn : n ∈ firstCreated cs env req <;> simp [hn]
      · exact (hdistinct.filter _).sublist (List.take_sublist _ _)
    rw [CreateVolume_new cs env req hcaps hname hnew, if_neg h0]
    refine ⟨_, newVolume cs env req, rfl, AList.lookup_insert _, hch, hperm, ?_⟩
    simp only [outTopology, List.map_map]
    have hid : (topologyNode ∘ nodeTopology) = id := by
      funext n
      exact topologyNode_nodeTopology n
    rw [hid, List.map_id]
    exact hperm

/-- Instance of C15: create(v2, cache, cacheSize 2) over the candidates A, B,
C with B unreachable creates on A and C, in that order. -/
theorem CreateVolume_chooses_first_witness :
    createdOn (CreateVolume (NewMasterControllerServer rsABC) envB reqV2).trace = ["A", "C"] :=
  (CreateVolume_chooses_first (NewMasterControllerServer rsABC) envB reqV2
    (by decide) (by decide) (by decide) (by decide)).1.trans (by decide)

/-- The examples of the specification: with A, B, C all reachable and model
none, exactly node A is contacted and chosen; with cache, cacheSize 2 and B
unreachable, the chosen nodes are A and C. -/
theorem CreateVolume_examples :
    contacted (CreateVolume (NewMasterControllerServer rsABC) envAll reqV1).trace = ["A"] ∧
    ((CreateVolume (NewMasterControllerServer rsABC) envAll reqV1).cs.pmemVolumes.lookup
      "id-1").map (fun vol => vol.nodeIDs.keys) = some ["A"] ∧
    contacted (CreateVolume (NewMasterControllerServer rsABC) envB reqV2).trace
      = ["A", "B", "C"] ∧
    ((CreateVolume (NewMasterControllerServer rsABC) envB reqV2).cs.pmemVolumes.lookup
      "id-2").map (fun vol => vol.nodeIDs.keys) = some ["C", "A"] := by
  decide

/-! ## CreateVolume: the replica target -/

theorem decimalValue_ge (digits : List Char) (n : Nat) : n ≤ decimalValue digits n := by
  induction digits generalizing n with
  | nil => exact le_refl n
  | cons d rest ih =>
    have := ih (10 * n + (d.toNat - '0'.toNat))
    simp only [decimalValue, List.foldl_cons] at this ⊢
    omega

theorem digit_le (d : Char) (hd : '0' ≤ d ∧ d ≤ '9') : d.toNat - '0'.toNat ≤ 9 := by
  have h := hd.2
  rw [Char.le_def] at h
  have h2 : d.val.toNat ≤ ('9' : Char).val.toNat := h
  have h3 : ('9' : Char).val.toNat = 57 := by decide
  have h4 : ('0' : Char).toNat = 48 := by decide
  have h5 : d.toNat = d.val.toNat := rfl
  omega

theorem parseUintLoop_eq (digits : List Char) (n : Nat) (hn : n < 2 ^ 64) :
    parseUintLoop digits n =
      if digits.all Char.isDigit = true ∧ decimalValue digits n < 2 ^ 64 then
        some (decimalValue digits n)
      else none := by
  induction digits generalizing n with
  | nil =>
    have h : ([] : List Char).all Char.isDigit = true ∧ decimalValue [] n < 2 ^ 64 := ⟨rfl, hn⟩
    rw [if_pos h]
    rfl
  | cons d rest ih =>
    have hcut : maxUint64 / 10 + 1 = 1844674407370955162 := by decide
    have hmax : maxUint64 = 18446744073709551615 := by decide
    have hge := decimalValue_ge rest (10 * n + (d.toNat - '0'.toNat))
    have hval : decimalValue (d :: rest) n
        = decimalValue rest (10 * n + (d.toNat - '0'.toNat)) := rfl
    have hall : (d :: rest).all Char.isDigit = (d.isDigit && rest.all Char.isDigit) := rfl
    unfold parseUintLoop
    rw [hval, hall, hcut, hmax]
    by_cases hd : '0' ≤ d ∧ d ≤ '9'
    · have hdig : d.isDigit = true := by
        simpa [Char.isDigit, Char.le_def] using hd
      have hv := digit_le d hd
      rw [if_pos hd, hdig, Bool.true_and]
      by_cases hc : n ≥ 1844674407370955162
      · rw [if_pos hc, if_neg]
        intro h
        omega
      · rw [if_neg hc]
        have hn' : n * 10 % 2 ^ 64 = n * 10 := Nat.mod_eq_of_lt (by omega)
        simp only [hn']
        by_cases hov : n * 10 + (d.toNat - '0'.toNat) < 2 ^ 64
        · have hn1 : (n * 10 + (d.toNat - '0'.toNat)) % 2 ^ 64
              = n * 10 + (d.toNat - '0'.toNat) := Nat.mod_eq_of_lt hov
          rw [hn1]
          have hcond : ¬ (n * 10 + (d.toNat - '0'.toNat) < n * 10 ∨
              n * 10 + (d.toNat - '0'.toNat) > 18446744073709551615) := by omega
          rw [if_neg hcond, ih _ hov, Nat.mul_comm n 10]
        · have hn1 : (n * 10 + (d.toNat - '0'.toNat)) % 2 ^ 64
              = n * 10 + (d.toNat - '0'.toNat) - 2 ^ 64 := by
            rw [Nat.mod_eq_sub_mod (by omega)]
            exact Nat.mod_eq_of_lt (by omega)
          rw [hn1]
          have hcond : n * 10 + (d.toNat - '0'.toNat) - 2 ^ 64 < n * 10 ∨
              n * 10 + (d.toNat - '0'.toNat) - 2 ^ 64 > 18446744073709551615 := by omega
          rw [if_pos hcond, if_neg]
          intro h
          omega
    · have hdig : d.isDigit = false := by
        simpa [Char.isDigit, Char.le_def] using hd
      rw [if_neg hd, hdig, Bool.false_and, if_neg]
      intro h
      cases h.1

/-- The digit loop of `ParseUint` accepts exactly the unsigned decimal integers
that fit in 64 bits, and returns their value. -/
theorem ParseUint_eq (s : String) : ParseUint s = unsignedDecimal64 s := by
  unfold ParseUint unsignedDecimal64
  by_cases hnil : s.toList = []
  · rw [if_pos (by rw [hnil]; rfl), if_neg (fun h => h.1 hnil)]
  · have hlen : ¬ s.toList.length = 0 := fun h => hnil (List.length_eq_zero.1 h)
    rw [if_neg hlen, parseUintLoop_eq _ 0 (by norm_num)]
    by_cases h : s.toList.all Char.isDigit = true ∧ decimalValue s.toList 0 < 2 ^ 64
    · rw [if_pos h, if_pos ⟨hnil, h⟩]
    · rw [if_neg h, if_neg (fun h' => h h'.2)]

theorem ParseUint_examples :
    ParseUint "2" = some 2 ∧ ParseUint "0" = some 0 ∧ ParseUint "007" = some 7 ∧
    ParseUint "18446744073709551615" = some 18446744073709551615 ∧
    ParseUint "18446744073709551616" = none ∧ ParseUint "" = none ∧
    ParseUint "+2" = none ∧ ParseUint "-1" = none ∧ ParseUint "two" = none ∧
    ParseUint "2 " = none := by
  decide

theorem createFanOut_zero (env : Env) (p : GoMap String) (tops : List Topology) (st : FanOut)
    (h0 : st.cacheCount = 0) : createFanOut env p tops st = st := by
  cases tops <;> simp [createFanOut, h0]

/-- C16: for a valid CreateVolume request whose name matches no record, the loop
runs with a replica target that is 1 when persistencyModel is absent or not
cache, the value of cacheSize when the model is cache and cacheSize is an
unsigned decimal integer fitting 64 bits, and 1 when the model is cache and
cacheSize is absent or not such an integer; with a target of at least 1 the
call succeeds as soon as one candidate succeeds, and with target 0 no node is
contacted and the call fails with Unavailable. -/
theorem CreateVolume_replica_target (cs : masterController) (env : Env)
    (req : CreateVolumeRequest)
    (hcaps : req.VolumeCapabilities ≠ none) (hname : req.Name ≠ "")
    (hnew : ∀ e ∈ cs.pmemVolumes.entries, e.2.name ≠ req.Name) :
    createdOn (CreateVolume cs env req).trace
      = ((candidateNodes cs req).filter env.creates).take (createParameters req.Parameters).2 ∧
    ((req.Parameters.bind fun p => p.lookup pmemParameterKeyPersistencyModel)
        ≠ some pmemPersistencyModelCache →
      (createParameters req.Parameters).2 = 1) ∧
    (∀ p, req.Parameters = some p →
      p.lookup pmemParameterKeyPersistencyModel = some pmemPersistencyModelCache →
      (p.lookup pmemParameterKeyCacheSize = none → (createParameters req.Parameters).2 = 1) ∧
      (∀ sz, p.lookup pmemParameterKeyCacheSize = some sz →
        (∀ c, unsignedDecimal64 sz = some c → (createParameters req.Parameters).2 = c) ∧
        (unsignedDecimal64 sz = none → (createParameters req.Parameters).2 = 1))) ∧
    (1 ≤ (createParameters req.Parameters).2 →
      (∃ n ∈ candidateNodes cs req, env.creates n = true) →
      ∃ resp, (CreateVolume cs env req).result = .ok resp) ∧
    ((createParameters req.Parameters).2 = 0 →
      CreateVolume cs env req = ⟨.error .Unavailable, cs, []⟩) := by
  have htrace : (CreateVolume cs env req).trace = (newVolumeFanOut cs env req).trace := by
    rw [CreateVolume_new cs env req hcaps hname hnew]
    split <;> rfl
  have hcre : createdOn (newVolumeFanOut cs env req).trace
      = ((candidateNodes cs req).filter env.creates).take (createParameters req.Parameters).2 :=
    newVolumeFanOut_createdOn cs env req
  refine ⟨htrace ▸ hcre, ?_, ?_, ?_, ?_⟩
  · intro hpm
    apply createParameters_not_cache
    rw [createParameters_fst]
    intro h
    apply hpm
    cases hb : req.Parameters.bind fun p => p.lookup pmemParameterKeyPersistencyModel with
    | none =>
      rw [hb] at h
      exact absurd h (by decide)
    | some val =>
      rw [hb] at h
      exact congrArg some h
  · intro p hp hpm
    rw [hp]
    refine ⟨fun hsz => ?_, fun sz hsz => ⟨fun c hc => ?_, fun hnone => ?_⟩⟩
    · simp [createParameters, hpm, hsz]
    · rw [← ParseUint_eq] at hc
      simp [createParameters, hpm, hsz, hc]
    · rw [← ParseUint_eq] at hnone
      simp [createParameters, hpm, hsz, hnone]
  · intro hk ⟨n, hn, hs⟩
    have hne : createdOn (newVolumeFanOut cs env req).trace ≠ [] := by
      rw [hcre]
      intro hnil
      rcases List.take_eq_nil_iff.1 hnil with h | h
      · omega
      · have hmem : n ∈ (candidateNodes cs req).filter env.creates := List.mem_filter.2 ⟨hn, hs⟩
        rw [h] at hmem
        cases hmem
    have h0 : ¬ (newVolumeFanOut cs env req).chosenNodes.keys.length = 0 :=
      fun h => hne ((newVolumeFanOut_none_chosen cs env req).1 h)
    rw [CreateVolume_new cs env req hcaps hname hnew, if_neg h0]
    exact ⟨_, rfl⟩
  · intro hk
    have hloop : newVolumeFanOut cs env req
        = { cacheCount := (createParameters req.Parameters).2, chosenNodes := ∅, trace := [] } :=
      createFanOut_zero env _ _ _ hk
    rw [CreateVolume_new cs env req hcaps hname hnew, hloop]
    simp

/-- Instance of C16: create(v5, cache, cacheSize 0) with every node reachable
contacts no node and fails with Unavailable. -/
theorem CreateVolume_replica_target_witness :
    CreateVolume (NewMasterControllerServer rsABC) envAll reqCacheZero
      = ⟨.error .Unavailable, NewMasterControllerServer rsABC, []⟩ :=
  (CreateVolume_replica_target (NewMasterControllerServer rsABC) envAll reqCacheZero
    (by decide) (by decide) (by decide)).2.2.2.2 (by decide)

/-! ## What a call does to the directory -/

/-- The directory after a CreateVolume call: as it was, or with the new record
under the new id. -/
theorem CreateVolume_cs (cs : masterController) (env : Env) (req : CreateVolumeRequest) :
    (CreateVolume cs env req).cs = cs ∨
    ((∃ resp, (CreateVolume cs env req).result = .ok resp ∧
        resp.Volume.VolumeId = env.newUUID) ∧
      (∀ e ∈ cs.pmemVolumes.entries, e.2.name ≠ req.Name) ∧
      (newVolume cs env req).nodeIDs.keys ≠ [] ∧
      (CreateVolume cs env req).cs
        = { cs with pmemVolumes := cs.pmemVolumes.insert env.newUUID (newVolume cs env req) }) := by
  by_cases hcaps : req.VolumeCapabilities = none
  · left
    simp [CreateVolume, ValidateControllerServiceRequest, serverCaps, hcaps]
  · by_cases hname : req.Name = ""
    · left
      simp [CreateVolume, ValidateControllerServiceRequest, serverCaps, hcaps, hname]
    · cases hvol : getVolumeByName cs req.Name with
      | some vol =>
        left
        by_cases hsize : vol.size < GetRequiredBytes req
        · rw [CreateVolume_conflict cs env req vol hcaps hname hvol hsize]
        · rw [CreateVolume_existing cs env req vol hcaps hname hvol (not_lt.1 hsize)]
      | none =>
        have hnew := (getVolumeByName_eq_none cs req.Name).1 hvol
        rw [CreateVolume_new cs env req hcaps hname hnew]
        by_cases h0 : (newVolumeFanOut cs env req).chosenNodes.keys.length = 0
        · left
          simp [h0]
        · right
          rw [if_neg h0]
          exact ⟨⟨_, rfl, rfl⟩, hnew, fun h => h0 (List.length_eq_zero.2 h), rfl⟩

/-- The directory after a DeleteVolume call: as it was, or without the id of the
record found under the requested id. -/
theorem DeleteVolume_cs (cs : masterController) (env : Env) (req : DeleteVolumeRequest) :
    (DeleteVolume cs env req).cs = cs ∨
    ∃ vol, cs.pmemVolumes.lookup req.VolumeId = some vol ∧
      (DeleteVolume cs env req).cs = { cs with pmemVolumes := cs.pmemVolumes.erase vol.id } := by
  by_cases hid : req.VolumeId = ""
  · left
    simp [DeleteVolume, ValidateControllerServiceRequest, serverCaps, hid]
  · cases hvol : cs.pmemVolumes.lookup req.VolumeId with
    | none =>
      left
      simp [DeleteVolume, ValidateControllerServiceRequest, serverCaps, hid, getVolumeByID, hvol]
    | some vol =>
      by_cases hp : (deleteFanOut env req.VolumeId vol.nodeIDs.keys []).panicked = true
      · left
        simp [DeleteVolume, ValidateControllerServiceRequest, serverCaps, hid, getVolumeByID,
          hvol, hp]
      · right
        exact ⟨vol, rfl, by
          simp [DeleteVolume, ValidateControllerServiceRequest, serverCaps, hid, getVolumeByID,
            hvol, hp]⟩

/-- The directory after a publish or unpublish call: as it was, or with one
node of the record under the requested id set to a state. -/
theorem ControllerPublishVolume_cs (cs : masterController)
    (req : ControllerPublishVolumeRequest) :
    (ControllerPublishVolume cs req).cs = cs ∨
    ∃ vol, cs.pmemVolumes.lookup req.VolumeId = some vol ∧
      (ControllerPublishVolume cs req).cs
        = { cs with pmemVolumes :=
              cs.pmemVolumes.insert req.VolumeId (vol.setNode req.NodeId .Attached) } := by
  by_cases hid : req.VolumeId = ""
  · left
    simp [ControllerPublishVolume, ValidateControllerServiceRequest, serverCaps, hid]
  · by_cases hnode : req.NodeId = ""
    · left
      simp [ControllerPublishVolume, ValidateControllerServiceRequest, serverCaps, hid, hnode]
    · by_cases hcap : req.VolumeCapability = none
      · left
        simp [ControllerPublishVolume, ValidateControllerServiceRequest, serverCaps, hid, hnode,
          hcap]
      · cases hvol : cs.pmemVolumes.lookup req.VolumeId with
        | none =>
          left
          simp [ControllerPublishVolume, ValidateControllerServiceRequest, serverCaps, hid,
            hnode, hcap, getVolumeByID, hvol]
        | some vol =>
          cases hn : vol.nodeIDs.lookup req.NodeId with
          | none =>
            left
            simp [ControllerPublishVolume, ValidateControllerServiceRequest, serverCaps, hid,
              hnode, hcap, getVolumeByID, hvol, hn]
          | some state =>
            by_cases hstate : state = .Attached
            · left
              simp [ControllerPublishVolume, ValidateControllerServiceRequest, serverCaps, hid,
                hnode, hcap, getVolumeByID, hvol, hn, hstate]
            · right
              exact ⟨vol, rfl, by
                simp [ControllerPublishVolume, ValidateControllerServiceRequest, serverCaps, hid,
                  hnode, hcap, getVolumeByID, hvol, hn, hstate]⟩

theorem ControllerUnpublishVolume_cs (cs : masterController)
    (req : ControllerUnpublishVolumeRequest) :
    (ControllerUnpublishVolume cs req).cs = cs ∨
    ∃ vol, cs.pmemVolumes.lookup req.VolumeId = some vol ∧
      (ControllerUnpublishVolume cs req).cs
        = { cs with pmemVolumes :=
              cs.pmemVolumes.insert req.VolumeId (vol.setNode req.NodeId .Unattached) } := by
  by_cases hid : req.VolumeId = ""
  · left
    simp [ControllerUnpublishVolume, ValidateControllerServiceRequest, serverCaps, hid]
  · cases hvol : cs.pmemVolumes.lookup req.VolumeId with
    | none =>
      left
      simp [ControllerUnpublishVolume, ValidateControllerServiceRequest, serverCaps, hid,
        getVolumeByID, hvol]
    | some vol =>
      right
      exact ⟨vol, rfl, by
        simp [ControllerUnpublishVolume, ValidateControllerServiceRequest, serverCaps, hid,
          getVolumeByID, hvol]⟩

theorem ValidateVolumeCapabilities_cs (cs : masterController)
    (req : ValidateVolumeCapabilitiesRequest) : (ValidateVolumeCapabilities cs req).cs = cs := by
  unfold ValidateVolumeCapabilities
  split
  · rfl
  · split
    · rfl
    · split
      · rfl
      · split <;> rfl

/-- What a call does to the controller: nothing, or the insertion of a new
record by a successful create, or the removal of a record by a delete, or a
new state for one node of one record. -/
theorem Call.run_cases (cs : masterController) (call : Call) :
    call.run cs = cs ∨
    (∃ env req resp, call = .create env req ∧ (CreateVolume cs env req).result = .ok resp ∧
      resp.Volume.VolumeId = env.newUUID ∧
      (∀ e ∈ cs.pmemVolumes.entries, e.2.name ≠ req.Name) ∧
      (newVolume cs env req).nodeIDs.keys ≠ [] ∧
      call.run cs
        = { cs with pmemVolumes := cs.pmemVolumes.insert env.newUUID (newVolume cs env req) }) ∨
    (∃ env req vol, call = .delete env req ∧ cs.pmemVolumes.lookup req.VolumeId = some vol ∧
      call.run cs = { cs with pmemVolumes := cs.pmemVolumes.erase vol.id }) ∨
    (∃ id vol node state, cs.pmemVolumes.lookup id = some vol ∧
      call.run cs = { cs with pmemVolumes := cs.pmemVolumes.insert id (vol.setNode node state) }) := by
  cases call with
  | create env req =>
    rcases CreateVolume_cs cs env req with h | ⟨⟨resp, hres, hid⟩, hnew, hne, hcs⟩
    · exact Or.inl h
    · exact Or.inr (Or.inl ⟨env, req, resp, rfl, hres, hid, hnew, hne, hcs⟩)
  | delete env req =>
    rcases DeleteVolume_cs cs env req with h | ⟨vol, hvol, hcs⟩
    · exact Or.inl h
    · exact Or.inr (Or.inr (Or.inl ⟨env, req, vol, rfl, hvol, hcs⟩))
  | publish req =>
    rcases ControllerPublishVolume_cs cs req with h | ⟨vol, hvol, hcs⟩
    · exact Or.inl h
    · exact Or.inr (Or.inr (Or.inr ⟨_, vol, _, _, hvol, hcs⟩))
  | unpublish req =>
    rcases ControllerUnpublishVolume_cs cs req with h | ⟨vol, hvol, hcs⟩
    · exact Or.inl h
    · exact Or.inr (Or.inr (Or.inr ⟨_, vol, _, _, hvol, hcs⟩))
  | validate req => exact Or.inl (ValidateVolumeCapabilities_cs cs req)
  | list => exact Or.inl (by simp [Call.run, ListVolumes, ValidateControllerServiceRequest, serverCaps])
  | capacity env =>
    exact Or.inl (by simp [Call.run, GetCapacity, ValidateControllerServiceRequest, serverCaps])

/-! ## Invariants of the directory -/

theorem insert_entries_forall {V : Type} (m : GoMap V) (k : String) (v : V)
    (P : (Σ _ : String, V) → Prop) (hm : ∀ e ∈ m.entries, P e) (hv : P ⟨k, v⟩) :
    ∀ e ∈ (m.insert k v).entries, P e := by
  intro e he
  rw [AList.insert_entries] at he
  rcases List.mem_cons.1 he with h | h
  · exact h ▸ hv
  · exact hm e ((List.kerase_sublist k m.entries).subset h)

theorem erase_entries_forall {V : Type} (m : GoMap V) (k : String)
    (P : (Σ _ : String, V) → Prop) (hm : ∀ e ∈ m.entries, P e) :
    ∀ e ∈ (m.erase k).entries, P e :=
  fun e he => hm e ((List.kerase_sublist k m.entries).subset he)

/-- Replacing the value under a key by one with the same label permutes the
labels of the map. -/
theorem insert_labels_perm {V β : Type} (m : GoMap V) (k : String) (v v' : V) (f : V → β)
    (hk : m.lookup k = some v) (hf : f v' = f v) :
    ((m.insert k v').entries.map fun e => f e.2).Perm (m.entries.map fun e => f e.2) := by
  have hmem : k ∈ m.entries.keys := AList.mem_keys.1 (AList.lookup_isSome.1 (by simp [hk]))
  obtain ⟨b, l₁, l₂, -, hl, hker⟩ := List.exists_of_kerase hmem
  have hb : b = v := by
    have h1 : (⟨k, b⟩ : Σ _ : String, V) ∈ m.entries := by
      rw [hl]
      exact List.mem_append_right _ (List.mem_cons_self _ _)
    have h2 : (⟨k, v⟩ : Σ _ : String, V) ∈ m.entries := AList.mem_lookup_iff.1 hk
    exact m.nodupKeys.eq_of_mk_mem h1 h2
  rw [AList.insert_entries, hker, hl, hb]
  simp only [List.map_cons, List.map_append, hf]
  exact List.perm_middle.symm

theorem NamesUnique_insert_new (cs : masterController) (id : String) (vol : pmemVolume)
    (h : NamesUnique cs) (hnew : ∀ e ∈ cs.pmemVolumes.entries, e.2.name ≠ vol.name) :
    NamesUnique { cs with pmemVolumes := cs.pmemVolumes.insert id vol } := by
  unfold NamesUnique at h ⊢
  simp only [AList.insert_entries, List.map_cons, List.nodup_cons]
  have hsub : List.Sublist ((List.kerase id cs.pmemVolumes.entries).map (fun e => e.2.name))
      (cs.pmemVolumes.entries.map (fun e => e.2.name)) :=
    (List.kerase_sublist id cs.pmemVolumes.entries).map _
  refine ⟨?_, h.sublist hsub⟩
  intro hmem
  obtain ⟨e, he, hname⟩ := List.mem_map.1 (hsub.subset hmem)
  exact hnew e he hname

theorem NamesUnique_erase (cs : masterController) (id : String) (h : NamesUnique cs) :
    NamesUnique { cs with pmemVolumes := cs.pmemVolumes.erase id } :=
  List.Nodup.sublist ((List.kerase_sublist id cs.pmemVolumes.entries).map _) h

theorem NamesUnique_setNode (cs : masterController) (id : String) (vol : pmemVolume)
    (node : String) (state : VolumeStatus) (h : NamesUnique cs)
    (hvol : cs.pmemVolumes.lookup id = some vol) :
    NamesUnique { cs with pmemVolumes := cs.pmemVolumes.insert id (vol.setNode node state) } :=
  (insert_labels_perm cs.pmemVolumes id vol (vol.setNode node state) (fun v => v.name)
    hvol rfl).nodup_iff.2 h

/-- Every call keeps the names unique, every record under its own id, and every
record with at least one replica node. -/
theorem Call.run_invariant (cs : masterController) (call : Call)
    (h : NamesUnique cs ∧ KeyedById cs ∧ ReplicasNonEmpty cs) :
    NamesUnique (call.run cs) ∧ KeyedById (call.run cs) ∧ ReplicasNonEmpty (call.run cs) := by
  obtain ⟨hn, hk, hr⟩ := h
  rcases Call.run_cases cs call with hcs | ⟨env, req, resp, -, -, -, hnew, hne, hcs⟩ |
      ⟨env, req, vol, -, -, hcs⟩ | ⟨id, vol, node, state, hvol, hcs⟩
  · rw [hcs]
    exact ⟨hn, hk, hr⟩
  · rw [hcs]
    exact ⟨NamesUnique_insert_new cs _ _ hn hnew,
      insert_entries_forall _ _ _ _ hk rfl, insert_entries_forall _ _ _ _ hr hne⟩
  · rw [hcs]
    exact ⟨NamesUnique_erase cs _ hn, erase_entries_forall _ _ _ hk,
      erase_entries_forall _ _ _ hr⟩
  · rw [hcs]
    have hmem : (⟨id, vol⟩ : Σ _ : String, pmemVolume) ∈ cs.pmemVolumes.entries :=
      AList.mem_lookup_iff.1 hvol
    refine ⟨NamesUnique_setNode cs id vol node state hn hvol,
      insert_entries_forall _ _ _ _ hk (hk ⟨id, vol⟩ hmem), insert_entries_forall _ _ _ _ hr ?_⟩
    simp [pmemVolume.setNode, AList.keys_insert]

/-- The three invariants hold in every reachable state. -/
theorem Reachable.invariant (cs : masterController) (h : Reachable cs) :
    NamesUnique cs ∧ KeyedById cs ∧ ReplicasNonEmpty cs := by
  induction h with
  | init rs =>
    refine ⟨?_, ?_, ?_⟩
    · simp [NamesUnique, NewMasterControllerServer]
    · intro e he
      simp [NewMasterControllerServer] at he
    · intro e he
      simp [NewMasterControllerServer] at he
  | registry cs rs _ ih => exact ih
  | step cs call _ ih => exact Call.run_invariant cs call ih

/-- C18: in every state reachable from the empty directory by calls of the
controller, two records under different ids have different names. -/
theorem reachable_names_unique (cs : masterController) (h : Reachable cs)
    (id₁ id₂ : String) (vol₁ vol₂ : pmemVolume)
    (h₁ : cs.pmemVolumes.lookup id₁ = some vol₁) (h₂ : cs.pmemVolumes.lookup id₂ = some vol₂)
    (hne : id₁ ≠ id₂) : vol₁.name ≠ vol₂.name := by
  intro hname
  have hn : NamesUnique cs := (Reachable.invariant cs h).1
  have heq : (⟨id₁, vol₁⟩ : Σ _ : String, pmemVolume) = ⟨id₂, vol₂⟩ :=
    List.inj_on_of_nodup_map hn (AList.mem_lookup_iff.1 h₁) (AList.mem_lookup_iff.1 h₂) hname
  exact hne (congrArg Sigma.fst heq)

/-- C20: in every state reachable from the empty directory by calls of the
controller, every record has a non-empty replicas map and is stored under its
own id. -/
theorem reachable_records_keyed (cs : masterController) (h : Reachable cs)
    (id : String) (vol : pmemVolume) (hvol : cs.pmemVolumes.lookup id = some vol) :
    vol.nodeIDs.keys ≠ [] ∧ vol.id = id := by
  obtain ⟨-, hk, hr⟩ := Reachable.invariant cs h
  have hmem : (⟨id, vol⟩ : Σ _ : String, pmemVolume) ∈ cs.pmemVolumes.entries :=
    AList.mem_lookup_iff.1 hvol
  exact ⟨hr _ hmem, hk _ hmem⟩

/-- Instance of C18: after create(v2) and create(v1) the two records have
different names. -/
theorem reachable_names_unique_witness : volV1.name ≠ volV2.name :=
  reachable_names_unique csV1V2
    (Reachable.step csV2 (.create envAll reqV1)
      (Reachable.step (NewMasterControllerServer rsABC) (.create envB reqV2)
        (Reachable.init rsABC)))
    "id-1" "id-2" volV1 volV2 (by decide) (by decide) (by decide)

/-- Instance of C20: the record create(v2) left has replicas and is stored
under its id. -/
theorem reachable_records_keyed_witness : volV2.nodeIDs.keys ≠ [] ∧ volV2.id = "id-2" :=
  reachable_records_keyed csV2
    (Reachable.step (NewMasterControllerServer rsABC) (.create envB reqV2)
      (Reachable.init rsABC))
    "id-2" volV2 (by decide)

/-! ## Frame of the calls -/

/-- C19: on a directory whose records are stored under their own ids, a call
adds an id only as a successful CreateVolume that returns this id (taken
fresh), removes an id only as a DeleteVolume of this id, leaves the set of ids
as it was when it is neither, and never changes the id, name, requested size
or persistency model of a record that is there before and after. -/
theorem call_frame (cs : masterController) (call : Call) (hkey : KeyedById cs)
    (hfresh : ∀ env req, call = .create env req → cs.pmemVolumes.lookup env.newUUID = none) :
    (∀ id, cs.pmemVolumes.lookup id = none → (call.run cs).pmemVolumes.lookup id ≠ none →
      ∃ env req resp, call = .create env req ∧ (CreateVolume cs env req).result = .ok resp ∧
        resp.Volume.VolumeId = id) ∧
    (∀ id, cs.pmemVolumes.lookup id ≠ none → (call.run cs).pmemVolumes.lookup id = none →
      ∃ env req, call = .delete env req ∧ req.VolumeId = id) ∧
    ((∀ env req, call ≠ .create env req) → (∀ env req, call ≠ .delete env req) →
      ∀ id, (call.run cs).pmemVolumes.lookup id = none ↔ cs.pmemVolumes.lookup id = none) ∧
    (∀ id vol vol', cs.pmemVolumes.lookup id = some vol →
      (call.run cs).pmemVolumes.lookup id = some vol' →
      vol'.id = vol.id ∧ vol'.name = vol.name ∧ vol'.size = vol.size ∧
      vol'.volumeType = vol.volumeType) := by
  rcases Call.run_cases cs call with hcs | ⟨env, req, resp, hcall, hres, hid, -, -, hcs⟩ |
      ⟨env, req, vol₀, hcall, hvol₀, hcs⟩ | ⟨id₀, vol₀, node, state, hvol₀, hcs⟩
  · rw [hcs]
    refine ⟨fun id h h' => absurd h h', fun id h h' => absurd h' h, fun _ _ id => Iff.rfl, ?_⟩
    intro id vol vol' h h'
    rw [h] at h'
    cases h'
    exact ⟨rfl, rfl, rfl, rfl⟩
  · have hf := hfresh env req hcall
    rw [hcs]
    refine ⟨?_, ?_, fun hnc _ => absurd hcall (hnc env req), ?_⟩
    · intro id h h'
      by_cases hid' : id = env.newUUID
      · exact ⟨env, req, resp, hcall, hres, hid.trans hid'.symm⟩
      · rw [AList.lookup_insert_ne hid'] at h'
        exact absurd h h'
    · intro id h h'
      by_cases hid' : id = env.newUUID
      · rw [hid', AList.lookup_insert] at h'
        cases h'
      · rw [AList.lookup_insert_ne hid'] at h'
        exact absurd h' h
    · intro id vol vol' h h'
      by_cases hid' : id = env.newUUID
      · rw [hid', hf] at h
        cases h
      · rw [AList.lookup_insert_ne hid', h] at h'
        cases h'
        exact ⟨rfl, rfl, rfl, rfl⟩
  · have hself : vol₀.id = req.VolumeId := hkey ⟨req.VolumeId, vol₀⟩ (AList.mem_lookup_iff.1 hvol₀)
    rw [hcs, hself]
    refine ⟨?_, ?_, fun _ hnd => absurd hcall (hnd env req), ?_⟩
    · intro id h h'
      by_cases hid' : id = req.VolumeId
      · rw [hid', AList.lookup_erase] at h'
        exact absurd rfl h'
      · rw [AList.lookup_erase_ne hid'] at h'
        exact absurd h h'
    · intro id h h'
      by_cases hid' : id = req.VolumeId
      · exact ⟨env, req, hcall, hid'.symm⟩
      · rw [AList.lookup_erase_ne hid'] at h'
        exact absurd h' h
    · intro id vol vol' h h'
      by_cases hid' : id = req.VolumeId
      · rw [hid', AList.lookup_erase] at h'
        cases h'
      · rw [AList.lookup_erase_ne hid', h] at h'
        cases h'
        exact ⟨rfl, rfl, rfl, rfl⟩
  · rw [hcs]
    refine ⟨?_, ?_, ?_, ?_⟩
    · intro id h h'
      by_cases hid' : id = id₀
      · rw [hid', hvol₀] at h
        cases h
      · rw [AList.lookup_insert_ne hid'] at h'
        exact absurd h h'
    · intro id h h'
      by_cases hid' : id = id₀
      · rw [hid', AList.lookup_insert] at h'
        cases h'
      · rw [AList.lookup_insert_ne hid'] at h'
        exact absurd h' h
    · intro _ _ id
      by_cases hid' : id = id₀
      · rw [hid']
        simp [AList.lookup_insert, hvol₀]
      · simp only
        rw [AList.lookup_insert_ne hid']
    · intro id vol vol' h h'
      by_cases hid' : id = id₀
      · rw [hid', hvol₀] at h
        rw [hid', AList.lookup_insert] at h'
        cases h
        cases h'
        exact ⟨rfl, rfl, rfl, rfl⟩
      · rw [AList.lookup_insert_ne hid', h] at h'
        cases h'
        exact ⟨rfl, rfl, rfl, rfl⟩

/-- Instance of C19: on the directory that holds id-2, with every node
reachable, the id that disappears is the one a DeleteVolume call names. -/
theorem call_frame_witness :
    ∃ env req, Call.delete envAll reqDeleteV2 = Call.delete env req ∧ req.VolumeId = "id-2" :=
  (call_frame csV2 (.delete envAll reqDeleteV2) (by decide)
    (fun _ _ h => Call.noConfusion h)).2.1 "id-2" (by decide) (by decide)

/-! ## CreateVolume: the candidates -/

/-- Where the candidates come from: the preferred list when it has entries;
the requisite list when the preferred list is nil and the requisite list has
entries; the registry when there is no requirement or both lists are nil or
the requisite list is empty under a nil preferred list; and the registry as
well when the preferred list is empty without being nil, whatever the
requisite list says. -/
theorem candidateTopology_cases (cs : masterController) (req : CreateVolumeRequest) :
    (∀ r l, req.AccessibilityRequirements = some r → r.Preferred = some l → l ≠ [] →
      candidateTopology cs req = l) ∧
    (∀ r l, req.AccessibilityRequirements = some r → r.Preferred = none →
      r.Requisite = some l → l ≠ [] → candidateTopology cs req = l) ∧
    (req.AccessibilityRequirements = none →
      candidateTopology cs req = cs.rs.nodeClients.keys.map nodeTopology) ∧
    (∀ r, req.AccessibilityRequirements = some r → r.Preferred = none →
      r.Requisite.getD [] = [] →
      candidateTopology cs req = cs.rs.nodeClients.keys.map nodeTopology) ∧
    (∀ r, req.AccessibilityRequirements = some r → r.Preferred = some [] →
      candidateTopology cs req = cs.rs.nodeClients.keys.map nodeTopology) := by
  refine ⟨?_, ?_, ?_, ?_, ?_⟩
  · intro r l hr hp hl
    simp [candidateTopology, requestedTopology, hr, hp, hl]
  · intro r l hr hp hq hl
    simp [candidateTopology, requestedTopology, hr, hp, hq, hl]
  · intro hr
    simp [candidateTopology, requestedTopology, hr]
  · intro r hr hp hq
    simp [candidateTopology, requestedTopology, hr, hp, hq]
  · intro r hr hp
    simp [candidateTopology, requestedTopology, hr, hp]

/-- Every node a new-volume CreateVolume contacts or chooses is a candidate;
so, for requests whose empty lists are nil, it is named by the preferred list
when that has entries, and by the requisite list when the preferred list has
none and the requisite list has entries. -/
theorem CreateVolume_within_candidates (cs : masterController) (env : Env)
    (req : CreateVolumeRequest)
    (hcaps : req.VolumeCapabilities ≠ none) (hname : req.Name ≠ "")
    (hnew : ∀ e ∈ cs.pmemVolumes.entries, e.2.name ≠ req.Name) :
    (∀ n ∈ contacted (CreateVolume cs env req).trace, n ∈ candidateNodes cs req) ∧
    (∀ n ∈ createdOn (CreateVolume cs env req).trace, n ∈ candidateNodes cs req) ∧
    (∀ resp, (CreateVolume cs env req).result = .ok resp →
      ∀ top ∈ resp.Volume.AccessibleTopology, topologyNode top ∈ candidateNodes cs req) := by
  have htrace : (CreateVolume cs env req).trace = (newVolumeFanOut cs env req).trace := by
    rw [CreateVolume_new cs env req hcaps hname hnew]
    split <;> rfl
  obtain ⟨rest, hsplit, hcre, -, -, -⟩ := newVolumeFanOut_prefix cs env req
  have hcont : ∀ n ∈ contacted (newVolumeFanOut cs env req).trace, n ∈ candidateNodes cs req := by
    intro n hn
    rw [hsplit]
    exact List.mem_append_left _ hn
  have hcreated : ∀ n ∈ createdOn (newVolumeFanOut cs env req).trace,
      n ∈ candidateNodes cs req := by
    intro n hn
    rw [hcre] at hn
    exact hcont n (List.mem_filter.1 hn).1
  rw [htrace]
  refine ⟨hcont, hcreated, ?_⟩
  intro resp hok top htop
  rw [CreateVolume_new cs env req hcaps hname hnew] at hok
  by_cases h0 : (newVolumeFanOut cs env req).chosenNodes.keys.length = 0
  · simp [h0] at hok
  · simp only [h0, if_false, Result.ok.injEq] at hok
    subst hok
    obtain ⟨n, hn, rfl⟩ := List.mem_map.1 htop
    rw [topologyNode_nodeTopology]
    apply hcreated
    have hl := newVolumeFanOut_chosen cs env req n
    have hsome : ((newVolumeFanOut cs env req).chosenNodes.lookup n).isSome :=
      AList.lookup_isSome.2 (AList.mem_keys.2 hn)
    by_contra hnot
    rw [hl, if_neg hnot] at hsome
    cases hsome

/-- The topology a decoded request asks for: its preferred list when that has
entries, its requisite list otherwise. -/
theorem requestedTopology_decoded (req : CreateVolumeRequest) (hwire : PreferredDecoded req) :
    (preferredTopology req ≠ [] → requestedTopology req = preferredTopology req) ∧
    (preferredTopology req = [] → requestedTopology req = requisiteTopology req) := by
  unfold PreferredDecoded at hwire
  unfold preferredTopology requisiteTopology requestedTopology
  cases hr : req.AccessibilityRequirements with
  | none => simp
  | some r =>
    rw [hr] at hwire
    cases hp : r.Preferred with
    | none => simp [hp]
    | some l =>
      have hl : l ≠ [] := by
        intro h
        apply hwire
        simp [hp, h]
      simp [hp, hl]

/-- C17: for a valid CreateVolume request, decoded from the wire, whose name
matches no record: when the preferred list has entries the candidates are the
preferred list, and every contacted and chosen node is the node segment of a
preferred entry; when it has none and the requisite list has entries the
candidates are the requisite list, and every contacted and chosen node is the
node segment of a requisite entry; and when the request gives no topology
entry the candidates are the nodes the registry knows. -/
theorem CreateVolume_candidates (cs : masterController) (env : Env) (req : CreateVolumeRequest)
    (hcaps : req.VolumeCapabilities ≠ none) (hname : req.Name ≠ "")
    (hnew : ∀ e ∈ cs.pmemVolumes.entries, e.2.name ≠ req.Name)
    (hwire : PreferredDecoded req) :
    (preferredTopology req ≠ [] →
      candidateTopology cs req = preferredTopology req ∧
      NodesWithin (CreateVolume cs env req) (preferredTopology req)) ∧
    (preferredTopology req = [] → requisiteTopology req ≠ [] →
      candidateTopology cs req = requisiteTopology req ∧
      NodesWithin (CreateVolume cs env req) (requisiteTopology req)) ∧
    (preferredTopology req = [] → requisiteTopology req = [] →
      candidateNodes cs req = cs.rs.nodeClients.keys) := by
  obtain ⟨hpref, hreq⟩ := requestedTopology_decoded req hwire
  obtain ⟨hcont, hcre, htop⟩ := CreateVolume_within_candidates cs env req hcaps hname hnew
  have hwithin : NodesWithin (CreateVolume cs env req) (candidateTopology cs req) := by
    refine ⟨fun n hn => ?_, fun n hn => ?_, fun resp hok t ht => ?_⟩
    · obtain ⟨top, htop', hn'⟩ := List.mem_map.1 (hcont n hn)
      exact ⟨top, htop', hn'⟩
    · obtain ⟨top, htop', hn'⟩ := List.mem_map.1 (hcre n hn)
      exact ⟨top, htop', hn'⟩
    · obtain ⟨top, htop', hn'⟩ := List.mem_map.1 (htop resp hok t ht)
      exact ⟨top, htop', hn'⟩
  refine ⟨fun hp => ?_, fun hp hq => ?_, fun hp hq => ?_⟩
  · have hc : candidateTopology cs req = preferredTopology req := by
      have hlen : ¬ (requestedTopology req).length = 0 := by
        rw [hpref hp]
        exact fun h => hp (List.length_eq_zero.1 h)
      unfold candidateTopology
      simp only [hlen, if_false]
      exact hpref hp
    exact ⟨hc, hc ▸ hwithin⟩
  · have hc : candidateTopology cs req = requisiteTopology req := by
      have hlen : ¬ (requestedTopology req).length = 0 := by
        rw [hreq hp]
        exact fun h => hq (List.length_eq_zero.1 h)
      unfold candidateTopology
      simp only [hlen, if_false]
      exact hreq hp
    exact ⟨hc, hc ▸ hwithin⟩
  · have hnil : requestedTopology req = [] := (hreq hp).trans hq
    have hid : (topologyNode ∘ nodeTopology) = id := by
      funext n
      exact topologyNode_nodeTopology n
    simp [candidateNodes, candidateTopology, hnil, List.map_map, hid]

/-- Instance of C17: create(v4) that prefers C and requires B or C, on the
registry A, B, C with every node reachable, has C as its only candidate. -/
theorem CreateVolume_candidates_witness :
    candidateTopology (NewMasterControllerServer rsABC) reqPreferredC = [nodeTopology "C"] ∧
    NodesWithin (CreateVolume (NewMasterControllerServer rsABC) envAll reqPreferredC)
      [nodeTopology "C"] :=
  (CreateVolume_candidates (NewMasterControllerServer rsABC) envAll reqPreferredC
    (by decide) (by decide) (by decide) (by decide)).1 (by decide)

/-- The three sources of candidates on the registry A, B, C with every node
reachable: a preferred list naming C makes the call contact C only; without
preferred list a requisite list naming B makes it contact B only; without any
topology it starts with the registry and contacts A. -/
theorem CreateVolume_candidates_examples :
    contacted (CreateVolume (NewMasterControllerServer rsABC) envAll reqPreferredC).trace
      = ["C"] ∧
    contacted (CreateVolume (NewMasterControllerServer rsABC) envAll reqRequisiteB).trace
      = ["B"] ∧
    candidateNodes (NewMasterControllerServer rsABC) reqV1 = ["A", "B", "C"] ∧
    contacted (CreateVolume (NewMasterControllerServer rsABC) envAll reqV1).trace = ["A"] := by
  decide

end PmemCSI
